import Mathlib

/-!
Shallow embedding of the combined-chat aggregation service (`src/app`):
the three chat-source adapters (Twitch IRC, Kick Pusher, YouTube polling),
the websocket subscribe normalisation, and the YouTube resolution cache.
Python strings are modelled as `List Char` (wrapped in `String` at the API
surface), dictionaries as association lists, and JSON values as the
inductive `JVal`.  Machine behaviour that is irrelevant to the verified
claims (network transport, the JSON tokeniser, the filesystem-backed Kick
badge assets) is abstracted as function inputs, never stubbed inside the
translated logic.
-/

namespace CombinedChat

/-! ## Python string primitives (shared by all adapters) -/

/-- `sep.isPrefixOf s` driven search: Python `str.partition(sep)` on char
lists.  Returns (before, found?, after); when the separator does not occur
the whole input is `before` and `after` is empty, exactly like Python's
`(s, "", "")`. -/
def pyPartition (sep : List Char) : List Char → List Char × Bool × List Char
  | [] => ([], false, [])
  | c :: rest =>
    if sep.isPrefixOf (c :: rest) then ([], true, (c :: rest).drop sep.length)
    else
      let r := pyPartition sep rest
      (c :: r.1, r.2.1, r.2.2)

/-- Python `str.split(sep)` for a one-character separator: keeps empty
fields, `"".split(sep) == [""]`. -/
def pySplit (sep : Char) : List Char → List (List Char)
  | [] => [[]]
  | c :: rest =>
    if c = sep then [] :: pySplit sep rest
    else
      match pySplit sep rest with
      | [] => [[c]]
      | h :: t => (c :: h) :: t

/-- Python `sub in s` substring membership test. -/
def containsSub (sub s : List Char) : Bool := (pyPartition sub s).2.1

/-- The whitespace characters stripped by Python `str.strip()` (ASCII
subset; the adapters only ever meet ASCII whitespace). -/
def isPySpace (c : Char) : Bool :=
  c = ' ' ∨ c = '\t' ∨ c = '\n' ∨ c = '\r' ∨ c = Char.ofNat 11 ∨ c = Char.ofNat 12

/-- Python `str.strip()` (no argument form). -/
def pyStrip (s : List Char) : List Char :=
  ((s.dropWhile isPySpace).reverse.dropWhile isPySpace).reverse

/-- Python `str.lstrip("#")`: drops every leading `'#'`. -/
def lstripHash (s : List Char) : List Char := s.dropWhile (fun c => c = '#')

/-- Python `str.lower()` (ASCII case fold, all channel/tag data is ASCII). -/
def pyLower (s : List Char) : List Char := s.map Char.toLower

/-- Python `str.replace(old, new)` for single characters. -/
def replaceChar (old new : Char) (s : List Char) : List Char :=
  s.map (fun c => if c = old then new else c)

/-- Python `int(str)` restricted to an optional sign followed by decimal
digits, with surrounding whitespace stripped; other inputs raise
`ValueError`, modelled as `none`.  (CPython additionally accepts
underscore digit separators; the emote tags this is applied to never
contain them.) -/
def pyInt? (s : List Char) : Option Int :=
  let t := pyStrip s
  let core : List Char → Option Nat := fun ds =>
    if ds = [] ∨ ¬ ds.all Char.isDigit then none
    else some (ds.foldl (fun acc c => acc * 10 + (c.toNat - '0'.toNat)) 0)
  match t with
  | '-' :: ds => (core ds).map (fun n => -(n : Int))
  | '+' :: ds => (core ds).map (fun n => (n : Int))
  | ds => (core ds).map (fun n => (n : Int))

/-- Python `a or b` on optional strings where `None` and `""` are falsy. -/
def pyOrStr (a b : Option (List Char)) : Option (List Char) :=
  match a with
  | some s => if s = [] then b else some s
  | none => b

/-! ## Association-list dictionaries (Python `dict`) -/

/-- `d[k] = v`: overwrite in place, insert at the end otherwise (Python
dicts preserve insertion order). -/
def dictInsert {κ α : Type} [DecidableEq κ] (m : List (κ × α)) (k : κ) (v : α) :
    List (κ × α) :=
  match m with
  | [] => [(k, v)]
  | (k', v') :: rest =>
    if k' = k then (k, v) :: rest else (k', v') :: dictInsert rest k v

/-- `d.get(k)`. -/
def dictGet {κ α : Type} [DecidableEq κ] (m : List (κ × α)) (k : κ) : Option α :=
  match m with
  | [] => none
  | (k', v) :: rest => if k' = k then some v else dictGet rest k

/-- `d.pop(k, None)`: every binding of `k` is removed (dict keys are
unique, so this coincides with Python's single-entry removal). -/
def dictPop {κ α : Type} [DecidableEq κ] (m : List (κ × α)) (k : κ) :
    List (κ × α) :=
  match m with
  | [] => []
  | (k', v) :: rest =>
    if k' = k then dictPop rest k else (k', v) :: dictPop rest k

/-! ## Normalised event payloads -/

/-- Badge record attached to chat payloads
(`{"set_id", "version", "title", "image_url"}`). -/
structure Badge where
  setId : String
  version : String
  title : String
  imageUrl : String
deriving DecidableEq, Repr

/-- Emote record `{"id", "name", "positions"}` from the Twitch adapter. -/
structure Emote where
  id : String
  name : String
  positions : List (Int × Int)
deriving DecidableEq, Repr

/-- Reply metadata `{"message_id", "user", "user_id", "message"}`. -/
structure Reply where
  messageId : String
  user : String
  userId : String
  message : String
deriving DecidableEq, Repr

namespace Twitch

/-- The chat payload built by `TwitchChatClient._parse_privmsg`
(twitch.py:133-172).  Optional dict keys are `Option`s; the `emotes` and
`badges` keys are attached only when the lists are non-empty, so the empty
list stands for the absent key. -/
structure Payload where
  user : String
  message : String
  id : Option String
  reply : Option Reply
  color : Option String
  userId : Option String
  emotes : List Emote
  badges : List Badge
deriving DecidableEq, Repr

open CombinedChat

/-- One pass of Python `str.replace(String.mk [a, b], String.mk [r])`:
every non-overlapping occurrence of the two-character pattern is replaced
left to right by the single character `r`. -/
def replace2 (a b r : Char) : List Char → List Char
  | [] => []
  | [c] => [c]
  | c :: d :: rest =>
    if c = a ∧ d = b then r :: replace2 a b r rest
    else c :: replace2 a b r (d :: rest)

/-- `TwitchChatClient._unescape_tag_value` (twitch.py:100-114) on a
present value: the five IRC tag escapes are rewritten by successive
global `str.replace` passes in the source's dict order
`\s, \n, \r, \:, \\`. -/
def unescapeTagValue (value : List Char) : List Char :=
  replace2 '\\' '\\' '\\'
    (replace2 '\\' ':' ';'
      (replace2 '\\' 'r' '\r'
        (replace2 '\\' 'n' '\n'
          (replace2 '\\' 's' ' ' value))))

/-- Whether a character opens one of the five recognised tag escapes. -/
def isEscChar (c : Char) : Bool :=
  c = 's' ∨ c = 'n' ∨ c = 'r' ∨ c = ':' ∨ c = '\\'

/-- The decoded character of an escape `\c`. -/
def escChar (c : Char) : Char :=
  if c = 's' then ' '
  else if c = 'n' then '\n'
  else if c = 'r' then '\r'
  else if c = ':' then ';'
  else '\\'

/-- Modelled from the spec's words (for comparison with
`unescapeTagValue`, which is translated from the code): decode the five
escapes in a single left-to-right pass, each escape exactly once, a
backslash produced by decoding `\\` never re-interpreted.  A backslash
that opens no recognised escape is kept verbatim. -/
def specSinglePassDecode : List Char → List Char
  | [] => []
  | [c] => [c]
  | c :: d :: rest =>
    if c = '\\' ∧ isEscChar d then escChar d :: specSinglePassDecode rest
    else c :: specSinglePassDecode (d :: rest)

/-- Tag values in which no two backslashes are adjacent — the fragment
of inputs on which the sequential `str.replace` decoding and the
single-pass decoding coincide. -/
def noDoubleBackslash : List Char → Bool
  | c :: d :: rest =>
    if c = '\\' ∧ d = '\\' then false else noDoubleBackslash (d :: rest)
  | _ => true

/-- `TwitchChatClient._parse_tags` (twitch.py:179-186): items without
`'='` are skipped, later duplicate keys overwrite earlier ones. -/
def parseTags (chunk : List Char) : List (String × String) :=
  (pySplit ';' chunk).foldl
    (fun tags item =>
      if containsSub ['='] item then
        let p := pyPartition ['='] item
        dictInsert tags (String.mk p.1) (String.mk p.2.2)
      else tags)
    []

/-- One `start-end` span from the emote tag (twitch.py:198-208): both
sides of the first `'-'` must be non-empty and parse as ints, and the
span must satisfy `0 ≤ start ≤ end < len(message)`. -/
def parseSpan (msgLen : Nat) (span : List Char) : Option (Int × Int) :=
  let p := pyPartition ['-'] span
  if p.1 = [] ∨ p.2.2 = [] then none
  else
    match pyInt? p.1, pyInt? p.2.2 with
    | some s, some e =>
      if s < 0 ∨ e < s ∨ e ≥ (msgLen : Int) then none else some (s, e)
    | _, _ => none

/-- Python slice `message[s : e + 1]` under `0 ≤ s ≤ e < len`. -/
def pySlice (msg : List Char) (s e : Int) : List Char :=
  (msg.drop s.toNat).take (e + 1 - s).toNat

/-- One `id:start-end,...` entry of the emote tag (twitch.py:193-213):
yields the `(emote_id, name)` key and this entry's valid slices, or
`none` when the entry is skipped. -/
def parseEntry (msg : List Char) (entry : List Char) :
    Option ((String × String) × List (Int × Int)) :=
  let p := pyPartition [':'] entry
  if p.1 = [] ∨ p.2.2 = [] then none
  else
    let slices := (pySplit ',' p.2.2).filterMap (parseSpan msg.length)
    match slices with
    | [] => none
    | (s, e) :: _ =>
      some ((String.mk p.1, String.mk (pySlice msg s e)), slices)

/-- `emote_map.setdefault(key, []).extend(slices)` on the insertion-order
association list. -/
def insertSlices (m : List ((String × String) × List (Int × Int)))
    (key : String × String) (sl : List (Int × Int)) :
    List ((String × String) × List (Int × Int)) :=
  match m with
  | [] => [(key, sl)]
  | (k, v) :: rest =>
    if k = key then (k, v ++ sl) :: rest else (k, v) :: insertSlices rest key sl

/-- The per-entry body of the `_parse_emotes` loop (twitch.py:193-213):
a skipped entry leaves the map unchanged, otherwise the entry's slices
are merged under its `(emote_id, name)` key. -/
def emoteFoldStep (msg : List Char)
    (acc : List ((String × String) × List (Int × Int))) (entry : List Char) :
    List ((String × String) × List (Int × Int)) :=
  match parseEntry msg entry with
  | none => acc
  | some (key, slices) => insertSlices acc key slices

/-- `TwitchChatClient._parse_emotes` (twitch.py:188-218). -/
def parseEmotes (emoteTag : Option String) (message : String) : List Emote :=
  match emoteTag with
  | none => []
  | some tag =>
    if tag.data = [] then []
    else
      let m := (pySplit '/' tag.data).foldl (emoteFoldStep message.data) []
      m.map (fun kv => { id := kv.1.1, name := kv.1.2, positions := kv.2 })

/-- The per-token body of the `_resolve_badges` loop (twitch.py:370-378):
a malformed token leaves the accumulator unchanged, a `set/version`
token appends the cached badge when the lookup hits. -/
def resolveBadgeStep (cache : List ((String × String) × Badge))
    (acc : List Badge) (token : List Char) : List Badge :=
  if token = [] then acc
  else if (pyPartition ['/'] token).1 = [] ∨ (pyPartition ['/'] token).2.2 = [] then acc
  else
    match dictGet cache (String.mk (pyPartition ['/'] token).1,
        String.mk (pyPartition ['/'] token).2.2) with
    | some badge => acc ++ [badge]
    | none => acc

/-- `TwitchChatClient._resolve_badges` (twitch.py:365-379): with a falsy
tag or an empty badge cache the result is `[]`; otherwise every
`set/version` token is looked up in the cache and silently skipped on a
miss — the source has no fallback construction. -/
def resolveBadges (cache : List ((String × String) × Badge))
    (badgesTag : Option String) : List Badge :=
  match badgesTag with
  | none => []
  | some tag =>
    if tag.data = [] ∨ cache = [] then []
    else (pySplit ',' tag.data).foldl (resolveBadgeStep cache) []

/-- Truthy `tags.get(k)`: the tag value when present and non-empty
(the source guards each optional payload key with `if value:`). -/
def truthyTag (tags : List (String × String)) (k : String) : Option String :=
  match dictGet tags k with
  | some v => if v.data = [] then none else some v
  | none => none

/-- `self._unescape_tag_value(tags.get(k))`: `None` passes through. -/
def unescapedTag (tags : List (String × String)) (k : String) :
    Option (List Char) :=
  (dictGet tags k).map (fun v => unescapeTagValue v.data)

/-- `TwitchChatClient._parse_privmsg` (twitch.py:122-177).  The guarded
`try` block only performs `partition`/`split`/slicing operations that
cannot raise `IndexError`/`ValueError` (the `int` parses inside
`_parse_emotes` have their own handler), so the function always returns a
payload; the `except` branch returning `None` is unreachable and the
model is accordingly total. -/
def parsePrivmsg (cache : List ((String × String) × Badge))
    (payload : String) : Payload :=
  let afterTags :=
    if payload.data.head? = some '@' then
      let p := pyPartition [' '] payload.data
      (parseTags (p.1.drop 1), p.2.2)
    else ([], payload.data)
  let tags := afterTags.1
  let p := pyPartition (" PRIVMSG ".data) afterTags.2
  let pfx := p.1
  let remainder := p.2.2
  let username := ((pySplit '!' pfx).headD []).drop 1
  let displayName :=
    match unescapedTag tags "display-name" with
    | some v => if v = [] then username else v
    | none => username
  let text := (pyPartition (" :".data) remainder).2.2
  let reply :=
    match truthyTag tags "reply-parent-msg-id" with
    | none => none
    | some parentId =>
      let parentDisplay :=
        pyOrStr (unescapedTag tags "reply-parent-display-name")
          ((dictGet tags "reply-parent-user-login").map String.data)
      let parentMessage := unescapedTag tags "reply-parent-msg-body"
      some { messageId := parentId
             user := String.mk (parentDisplay.getD [])
             userId := (dictGet tags "reply-parent-user-id").getD ""
             message := String.mk (parentMessage.getD []) }
  { user := String.mk displayName
    message := String.mk text
    id := truthyTag tags "id"
    reply := reply
    color := truthyTag tags "color"
    userId := truthyTag tags "user-id"
    emotes := parseEmotes (dictGet tags "emotes") (String.mk text)
    badges := resolveBadges cache (dictGet tags "badges") }

/-- The read-loop dispatch of `TwitchChatClient.run` (twitch.py:57-65): a
stripped line starting with `PING` is answered and dropped, a line
containing `PRIVMSG` is parsed and — because a Python dict with keys is
always truthy and `_parse_privmsg` always returns one — always enqueued
as a chat event, and every other line is ignored. -/
def handleLine (cache : List ((String × String) × Badge))
    (decoded : String) : Option Payload :=
  if ("PING".data).isPrefixOf decoded.data then none
  else if containsSub ("PRIVMSG".data) decoded.data then
    some (parsePrivmsg cache decoded)
  else none

end Twitch

/-! ## JSON values and Python truthiness (Kick and YouTube payloads) -/

/-- Decoded JSON values as Python sees them (`None`, `bool`, `int`,
`str`, `list`, `dict`).  Floats are not modelled: none of the decoded
fields the adapters read are fractional. -/
inductive JVal where
  | null
  | bool (b : Bool)
  | num (n : Int)
  | str (s : String)
  | arr (items : List JVal)
  | obj (fields : List (String × JVal))

/-- Python truthiness of a decoded value. -/
def truthy : JVal → Bool
  | .null => false
  | .bool b => b
  | .num n => n ≠ 0
  | .str s => s ≠ ""
  | .arr [] => false
  | .arr (_ :: _) => true
  | .obj [] => false
  | .obj (_ :: _) => true

/-- `value is None`. -/
def JVal.isNull : JVal → Bool
  | .null => true
  | _ => false

/-- `d.get(k)` where a missing key yields `None`; only ever applied to
values the source has already checked with `isinstance(…, dict)` (on a
non-dict the model yields `None` as well). -/
def jget (v : JVal) (k : String) : JVal :=
  match v with
  | .obj fields => (dictGet fields k).getD .null
  | _ => .null

/-- Python `a or b`: `a` when truthy, else `b` (even when `b` is falsy). -/
def pyOr (a b : JVal) : JVal := if truthy a then a else b

/-- Python `str(value)` for the scalar values the adapters coerce
(upstream ids are strings or integers; the structured cases cannot reach
a `str()` call site in the translated code). -/
def pyStr : JVal → String
  | .str s => s
  | .num n => toString n
  | .bool b => if b then "True" else "False"
  | .null => "None"
  | .arr _ => ""
  | .obj _ => ""

/-- `isinstance(v, dict)`. -/
def isDict : JVal → Bool
  | .obj _ => true
  | _ => false

/-! ## Shared event model for the adapter run loops -/

/-- The lifecycle events the adapters enqueue (`type` is `chat`,
`status` or `error`); chat payloads are modelled separately per adapter,
so `Event` here carries only the envelope the error-handling claims
inspect. -/
inductive EvKind where
  | chat
  | status
  | error
deriving DecidableEq, Repr

/-- An enqueued `status`/`error`/`chat` envelope. -/
structure Event where
  platform : String
  channel : Option String
  kind : EvKind
  message : String
deriving DecidableEq, Repr

namespace Twitch

/-- `TwitchChatClient.run` (twitch.py:29-88) at its exception boundary:
`pre` are the events the `try` body enqueued before it finished or
failed, `outcome` is `none` for a normal return and `some e` for an
exception escaping the body.  `except Exception` converts the exception
into one error event, the `finally` block always enqueues the
disconnect status, and nothing propagates (the returned flag). -/
def runEvents (channel : String) (pre : List Event) (outcome : Option String) :
    List Event × Bool :=
  (pre ++
    (match outcome with
     | some e =>
       [{ platform := "twitch", channel := none, kind := .error,
          message := "Twitch connection failed: " ++ e }]
     | none => []) ++
    [{ platform := "twitch", channel := none, kind := .status,
       message := "Disconnected from Twitch chat for " ++ channel }],
   false)

end Twitch

namespace Kick

open CombinedChat

/-- Kick reply metadata: the first (direct `reply_to`) shape coerces each
field with `str(…)`, the metadata fallback shape stores the raw decoded
values, so the fields stay `JVal`s. -/
structure KReply where
  messageId : JVal
  user : JVal
  userId : JVal
  message : JVal

/-- The chat payload built by `KickChatClient._parse_chat_message`
(kick.py:514-638).  `user` and `message` keep the decoded JSON values the
source stores without coercion. -/
structure Payload where
  user : JVal
  message : JVal
  channel : String
  channelProfileImage : Option String
  channelDisplayName : Option String
  color : Option JVal
  badges : List Badge
  id : Option String
  userId : Option String
  reply : Option KReply

/-- The direct `reply_to`/`replied_to`/`metadata.reply_to` shape
(kick.py:579-594): every field is `str(…)`-coerced, missing ids become
`""`. -/
def replyFromSource (rs : JVal) : KReply :=
  let replyMsg := pyOr (jget rs "message") (pyOr (jget rs "content") (.str ""))
  let replyUser := pyOr (jget rs "username") (pyOr (jget rs "user") (.str ""))
  let replyUserId := pyOr (jget rs "user_id") (pyOr (jget rs "id") (.str ""))
  let replyMessageId :=
    pyOr (jget rs "id") (pyOr (jget rs "message_id") (jget rs "chat_message_id"))
  { messageId := if replyMessageId.isNull = false then .str (pyStr replyMessageId) else .str ""
    user := .str (pyStr replyUser)
    userId := .str (pyStr replyUserId)
    message := .str (pyStr replyMsg) }

/-- The `metadata.original_sender`/`original_message` fallback shape
(kick.py:596-636): raw values with `""` defaults, ids `str(…)`-coerced. -/
def replyFromMetadata (originalSender originalMessage : JVal) : KReply :=
  let replyUser :=
    if isDict originalSender then
      pyOr (jget originalSender "username")
        (pyOr (jget originalSender "user") (pyOr (jget originalSender "slug") (.str "")))
    else .str ""
  let replyUserId :=
    if isDict originalSender then
      let senderId := pyOr (jget originalSender "user_id") (jget originalSender "id")
      if senderId.isNull = false then JVal.str (pyStr senderId) else .str ""
    else .str ""
  let replyMsg :=
    if isDict originalMessage then
      pyOr (jget originalMessage "content")
        (pyOr (jget originalMessage "message") (pyOr (jget originalMessage "text") (.str "")))
    else .str ""
  let replyMessageId :=
    if isDict originalMessage then
      let mid := pyOr (jget originalMessage "message_id")
        (pyOr (jget originalMessage "chat_message_id") (jget originalMessage "id"))
      if mid.isNull = false then JVal.str (pyStr mid) else .str ""
    else .str ""
  { messageId := replyMessageId, user := replyUser,
    userId := replyUserId, message := replyMsg }

/-- `KickChatClient._parse_chat_message` (kick.py:514-638) after the
`data` field has been decoded (the `json.loads` of a doubly-encoded
string payload is the JSON tokeniser, not adapter logic; a decode failure
or a non-dict `data` yields `None` exactly as in the source, which this
model receives as a non-`obj` argument).  The network/filesystem-backed
`KickBadgeResolver.resolve` is abstracted as the `resolver` argument;
`profileImage`/`displayName` are the cached channel-profile attributes. -/
def parseChatMessage (resolver : List JVal → List Badge)
    (profileImage displayName : String) (channel : String)
    (data : JVal) : Option Payload :=
  if ¬ isDict data then none
  else
    let content := pyOr (jget data "content") (jget data "message")
    let sender := pyOr (jget data "sender") (jget data "user")
    let usernameAndId : JVal × Option String :=
      if isDict sender then
        (pyOr (jget sender "username") (jget sender "slug"),
         let rawId := pyOr (jget sender "id") (jget sender "user_id")
         if rawId.isNull = false then some (pyStr rawId) else none)
      else
        (sender,
         if truthy sender ∧ isDict (jget data "sender") then
           let rawId := pyOr (jget (jget data "sender") "id")
             (jget (jget data "sender") "user_id")
           if rawId.isNull = false then some (pyStr rawId) else none
         else none)
    let username := usernameAndId.1
    if ¬ truthy content ∨ ¬ truthy username then none
    else
      let identity := jget sender "identity"
      let colorAndBadges : Option JVal × List Badge :=
        if isDict sender ∧ isDict identity then
          ((if truthy (jget identity "color") then some (jget identity "color") else none),
           match jget identity "badges" with
           | .arr rawBadges => resolver rawBadges
           | _ => [])
        else (none, [])
      let messageId := pyOr (jget data "id") (pyOr (jget data "chat_id") (jget data "uuid"))
      let metadata := if isDict (jget data "metadata") then jget data "metadata" else .obj []
      let replySource := pyOr (jget data "reply_to")
        (pyOr (jget data "replied_to") (jget metadata "reply_to"))
      let originalSender := jget metadata "original_sender"
      let originalMessage := jget metadata "original_message"
      let reply : Option KReply :=
        if isDict replySource then some (replyFromSource replySource)
        else if isDict originalSender ∨ isDict originalMessage then
          some (replyFromMetadata originalSender originalMessage)
        else none
      some
        { user := username
          message := content
          channel := channel
          channelProfileImage := if profileImage ≠ "" then some profileImage else none
          channelDisplayName := if displayName ≠ "" then some displayName else none
          color := colorAndBadges.1
          badges := colorAndBadges.2
          id := if messageId.isNull = false then some (pyStr messageId) else none
          userId := usernameAndId.2
          reply := reply }

/-- How the `try` body of the main websocket phase of
`KickChatClient.run` can end. -/
inductive RunOutcome where
  | finished
  | connClosed (e : String)
  | unexpected (e : String)
  | cancelled
deriving DecidableEq, Repr

/-- `KickChatClient.run` (kick.py:314-371) at its exception boundaries:
`lookup` is `some e` when `_fetch_chatroom_id` raised, in which case one
error plus the stopped status are enqueued and the task returns early;
otherwise `pre` are the events enqueued by `_consume` before `outcome`.
`ConnectionClosed` is only logged, an unexpected exception becomes one
error event, `CancelledError` is re-raised (the returned flag), and the
`finally` block always enqueues the disconnect status. -/
def runEvents (channel : String) (lookup : Option String)
    (pre : List Event) (outcome : RunOutcome) : List Event × Bool :=
  match lookup with
  | some e =>
    ([{ platform := "kick", channel := some channel, kind := .error,
        message := "Kick channel lookup failed: " ++ e },
      { platform := "kick", channel := some channel, kind := .status,
        message := "Stopped listening to " ++ channel }],
     false)
  | none =>
    (pre ++
      (match outcome with
       | .unexpected e =>
         [{ platform := "kick", channel := some channel, kind := .error,
            message := "Kick connection failed: " ++ e }]
       | _ => []) ++
      [{ platform := "kick", channel := some channel, kind := .status,
         message := "Disconnected from Kick chat for " ++ channel }],
     outcome = .cancelled)

end Kick

namespace YouTube

open CombinedChat

/-- YouTube badge payload `{"title", "set_id", "version"}` with an
optional `image_url` (youtube.py:615-617). -/
structure YtBadge where
  title : String
  setId : String
  version : String
  imageUrl : Option String
deriving DecidableEq, Repr

/-- The chat payload built by `YouTubeChatClient._parse_message`
(youtube.py:589-640). -/
structure Payload where
  user : String
  message : String
  channel : String
  userId : Option String
  avatar : Option String
  badges : List YtBadge
  id : Option String
  channelProfileImage : Option String
  channelDisplayName : Option String
deriving DecidableEq, Repr

/-- The recent-id update of `_parse_message` (youtube.py:556-563) for a
fresh id: the id is added to the seen set, and when the set's size then
exceeds 5000 one element is removed by `set.pop()`.  A CPython set is
unordered and `pop()` removes an arbitrary element (whichever hash slot
is scanned first), so the seen set is modelled in insertion order and the
popped element is an arbitrary index `evict`, a nondeterministic choice
resolved by the environment. -/
def updateSeen (seen : List String) (id : String) (evict : Nat) : List String :=
  let added := seen ++ [id]
  if added.length > 5000 then added.eraseIdx evict else added

/-- Whether a decoded snippet `type` is one of the two accepted message
types (youtube.py:570-572). -/
def acceptedType : JVal → Bool
  | .str s => s = "textMessageEvent" ∨ s = "superChatEvent"
  | _ => false

/-- `v == lit` for a decoded value against a Python string literal. -/
def isStrVal : JVal → String → Bool
  | .str s, t => s = t
  | _, _ => false

/-- `isinstance(v, str) and v.strip()` (youtube.py:582). -/
def isNonBlankStr : JVal → Bool
  | .str s => pyStrip s.data ≠ []
  | _ => false

/-- The badge list of `_parse_message` (youtube.py:605-628): a decoded
`badges` list is mapped through the title/iconUrl shape, any other value
falls back to the four author boolean flags in source order. -/
def parseBadges (author : JVal) : List YtBadge :=
  match jget author "badges" with
  | .arr rawBadges =>
    rawBadges.foldl
      (fun acc badge =>
        if ¬ isDict badge then acc
        else
          match jget badge "title" with
          | .str title =>
            let imageUrl :=
              match jget badge "iconUrl" with
              | .str u => if u ≠ "" then some u else none
              | _ => none
            acc ++ [{ title := title, setId := "youtube",
                      version := String.mk (pyLower title.data),
                      imageUrl := imageUrl }]
          | _ => acc)
      []
  | _ =>
    ([("isChatOwner", "Owner"), ("isChatModerator", "Moderator"),
      ("isChatSponsor", "Sponsor"), ("isVerified", "Verified")] :
        List (String × String)).foldl
      (fun acc flag =>
        if truthy (jget author flag.1) then
          acc ++ [{ title := flag.2, setId := "youtube",
                    version := String.mk (pyLower flag.2.data),
                    imageUrl := none }]
        else acc)
      []

/-- The value of a decoded field known to be a string (the source uses
`display_message` directly after its `isinstance(display_message, str)`
guard; non-`str` cases are unreachable there). -/
def strOrEmpty : JVal → String
  | .str s => s
  | _ => ""

/-- The de-duplication step of `_parse_message` (youtube.py:554-563):
a string id already in the seen set yields `none` (the message is
dropped before any further parsing); a fresh string id is recorded via
`updateSeen`; a missing or non-string id skips de-duplication. -/
def seenStep (seen : List String) (evict : Nat) (messageId : JVal) :
    Option (List String) :=
  match messageId with
  | .str s => if seen.contains s then none else some (updateSeen seen s evict)
  | _ => some seen

/-- `YouTubeChatClient._parse_message` (youtube.py:551-640).  `channel`,
`thumb` and `title` are the client attributes `self.channel`,
`self._channel_thumbnail` and `self._channel_title` (`none` for a falsy
attribute); `evict` resolves the nondeterministic `set.pop()` choice of
`updateSeen`.  Returns the optional chat payload and the updated seen
set: an id already seen returns no payload and leaves the set unchanged,
and a fresh id is recorded even when the item is later rejected. -/
def parseMessage (channel : String) (thumb title : Option String)
    (seen : List String) (evict : Nat) (item : JVal) :
    Option Payload × List String :=
  if ¬ isDict item then (none, seen)
  else
    let messageId := jget item "id"
    match seenStep seen evict messageId with
    | none => (none, seen)
    | some seen' =>
      let snippet := jget item "snippet"
      let author := jget item "authorDetails"
      if ¬ isDict snippet ∨ ¬ isDict author then (none, seen')
      else if ¬ acceptedType (jget snippet "type") then (none, seen')
      else
        let displayMessage :=
          if isStrVal (jget snippet "type") "superChatEvent" then
            let details := jget snippet "superChatDetails"
            if isDict details ∧ isNonBlankStr (jget details "userComment") then
              jget details "userComment"
            else jget snippet "displayMessage"
          else jget snippet "displayMessage"
        if ¬ isNonBlankStr displayMessage then (none, seen')
        else
          let authorName :=
            match jget author "displayName" with
            | .str s => s
            | _ => "YouTube User"
          (some
            { user := authorName
              message := strOrEmpty displayMessage
              channel := channel
              userId :=
                match jget author "channelId" with
                | .str s => some s
                | _ => none
              avatar :=
                match jget author "profileImageUrl" with
                | .str s => if s ≠ "" then some s else none
                | _ => none
              badges := parseBadges author
              id := match messageId with | .str s => some s | _ => none
              channelProfileImage := thumb
              channelDisplayName := title },
           seen')

/-- The polling-interval update at the end of each poll cycle
(youtube.py:530-535): a numeric, strictly positive
`pollingIntervalMillis` hint replaces the interval by
`max(1.0, interval_ms / 1000)`; any other hint leaves the previous
interval (initially 2.5 s) unchanged.  Numbers are modelled as
rationals. -/
def nextPollInterval (prev : ℚ) (hint : Option ℚ) : ℚ :=
  match hint with
  | some h => if 0 < h then max 1 (h / 1000) else prev
  | none => prev

/-- `LiveChatCacheEntry` (youtube.py:35-39). -/
structure LiveChatEntry where
  liveChatId : String
  videoId : Option String
  expiresAt : ℚ
deriving DecidableEq, Repr

/-- The module-level in-memory caches `_live_chat_cache` and
`_live_chat_failures` (youtube.py:43-44), keyed by lowercased channel id
or handle. -/
structure CacheState where
  liveChat : List (String × LiveChatEntry)
  failures : List (String × ℚ)
deriving DecidableEq, Repr

/-- `invalidate_live_chat_cache` (youtube.py:92-98): for each provided,
truthy key the lowercased key is popped from both the live-chat cache and
the failure (negative) cache, unconditionally — no expiry is consulted. -/
def invalidateLiveChatCache (channelId handle : Option String)
    (s : CacheState) : CacheState :=
  ([channelId, handle] : List (Option String)).foldl
    (fun st k =>
      match k with
      | none => st
      | some key =>
        if key = "" then st
        else
          let keyLower := String.mk (pyLower key.data)
          { liveChat := dictPop st.liveChat keyLower
            failures := dictPop st.failures keyLower })
    s

/-- The read side of `_get_cached_live_chat` (youtube.py:84-86) for one
key: a hit only while `expires_at > now`. -/
def liveChatHit (now : ℚ) (s : CacheState) (key : String) :
    Option LiveChatEntry :=
  match dictGet s.liveChat (String.mk (pyLower key.data)) with
  | some e => if now < e.expiresAt then some e else none
  | none => none

/-- The 404/410 branch of the poll loop (youtube.py:500-511): the
live-chat cache is invalidated under both the channel id and the handle,
`self._live_chat_id` is cleared, one terminal status event is enqueued,
and the loop breaks (the returned flag). -/
def pollNotFoundStep (channelId : Option String) (channel : String)
    (s : CacheState) : CacheState × List Event × Bool :=
  (invalidateLiveChatCache channelId (some channel) s,
   [{ platform := "youtube", channel := some channel, kind := .status,
      message := "YouTube live chat ended" }],
   true)

/-- How `YouTubeChatClient.run` (youtube.py:433-466) gets past its
start-up phase: `ensure_channel_exists` raised, the live chat id or API
key is missing, or polling can begin. -/
inductive StartOutcome where
  | resolveError (e : String)
  | unavailable
  | ready
deriving DecidableEq, Repr

/-- How the poll loop of `YouTubeChatClient.run` (youtube.py:471-537)
ends: a `break`/stop, an unexpected exception, or task cancellation. -/
inductive LoopOutcome where
  | breaks
  | unexpected (e : String)
  | cancelled
deriving DecidableEq, Repr

/-- `YouTubeChatClient.run` (youtube.py:433-549) at its exception
boundaries.  A resolution failure or missing live chat id enqueues one
error event and returns — with no terminal status.  Once polling started
(`title` is the connected-status display name, `pre` the events the loop
body enqueued), the only handler is `except asyncio.CancelledError:
raise`, so an unexpected exception is never converted to an error event:
the `finally` block enqueues the disconnect status and the exception
propagates across the task boundary (the returned flag). -/
def runEvents (channel title : String) (start : StartOutcome)
    (pre : List Event) (outcome : LoopOutcome) : List Event × Bool :=
  match start with
  | .resolveError e =>
    ([{ platform := "youtube", channel := some channel, kind := .error,
        message := "YouTube channel lookup failed: " ++ e }],
     false)
  | .unavailable =>
    ([{ platform := "youtube", channel := some channel, kind := .error,
        message := "YouTube live chat unavailable" }],
     false)
  | .ready =>
    ({ platform := "youtube", channel := some channel, kind := .status,
       message := "Connected to YouTube chat for " ++ title } ::
      pre ++
      [{ platform := "youtube", channel := some channel, kind := .status,
         message := "Disconnected from YouTube chat for " ++ title }],
     match outcome with
     | .breaks => false
     | _ => true)

/-- An upstream HTTP response: status code plus decoded JSON body. -/
structure HttpResp where
  status : Nat
  body : JVal

/-- What a Python caller of `fetch_live_chat_id_for_channel` receives:
the documented pair, or — on one slip path — a bare `None`. -/
inductive FetchResult where
  | pair (liveChatId videoId : Option String)
  | bareNone

/-- The video-id extraction both search calls share
(youtube.py:685-696 and 707-718). -/
def extractVideoId (resp : HttpResp) : Option String :=
  if resp.status = 200 then
    match jget resp.body "items" with
    | .arr (entry :: _) =>
      if isDict entry then
        let itemId := jget entry "id"
        if isDict itemId then
          match jget itemId "videoId" with
          | .str s => if s ≠ "" then some s else none
          | _ => none
        else none
      else none
    | _ => none
  else none

/-- `fetch_live_chat_id_for_channel` (youtube.py:665-753) as a function
of the three upstream responses (primary search, slug search, videos
lookup).  Every exit returns the documented pair except the
`items[0]`-not-a-dict check of the videos response (youtube.py:744-745),
which executes a bare `return None`. -/
def fetchLiveChatIdForChannel (channelSlug : Option String)
    (primary secondary videos : HttpResp) : FetchResult :=
  let videoId :=
    match extractVideoId primary with
    | some v => some v
    | none =>
      match channelSlug with
      | some slug => if slug ≠ "" then extractVideoId secondary else none
      | none => none
  match videoId with
  | none => .pair none none
  | some vid =>
    if videos.status ≠ 200 then .pair none none
    else
      match jget videos.body "items" with
      | .arr (entry :: _) =>
        if isDict entry then
          let details := jget entry "liveStreamingDetails"
          if isDict details then
            match jget details "activeLiveChatId" with
            | .str s => if s ≠ "" then .pair (some s) (some vid) else .pair none none
            | _ => .pair none none
          else .pair none none
        else .bareNone
      | _ => .pair none none

/-- The two-element unpacking at the call site
`live_chat_id, video_id = await fetch_live_chat_id_for_channel(...)`
(youtube.py:298-303): unpacking a bare `None` raises `TypeError`. -/
def unpackPair (r : FetchResult) :
    Except String (Option String × Option String) :=
  match r with
  | .pair a b => .ok (a, b)
  | .bareNone => .error "TypeError: cannot unpack non-iterable NoneType object"

end YouTube

namespace Orchestrator

open CombinedChat

/-- A per-platform channel field of the subscribe request as
`websocket_endpoint._normalise_channels` (main.py:90-122) distinguishes
its type: `None`, a string, a list/tuple/set (non-string, non-`None`
elements are `str(…)`-coerced before stripping and are modelled as the
resulting strings), or any other value. -/
inductive SubVal where
  | vNone
  | vStr (s : String)
  | vList (items : List String)
  | vOther
deriving DecidableEq, Repr

/-- The `raw_items` extraction (main.py:93-105): strings are split on
commas after newlines are replaced by commas, each piece stripped. -/
def rawItems : SubVal → List String
  | .vNone => []
  | .vStr s =>
    (pySplit ',' (replaceChar '\n' ',' s.data)).map (fun cs => String.mk (pyStrip cs))
  | .vList items => items.map (fun s => String.mk (pyStrip s.data))
  | .vOther => []

/-- The cleaning loop (main.py:107-122): skip empties, strip leading
`'#'`s and whitespace, drop case-insensitive duplicates, and `break`
as soon as ten channels have been accepted. -/
def cleanGo : List String → List String → List String → List String
  | [], _, cleaned => cleaned
  | item :: rest, seen, cleaned =>
    if item.data = [] then cleanGo rest seen cleaned
    else
      let normalised := pyStrip (lstripHash item.data)
      if normalised = [] then cleanGo rest seen cleaned
      else
        let key := String.mk (pyLower normalised)
        if seen.contains key then cleanGo rest seen cleaned
        else
          let cleaned' := cleaned ++ [String.mk normalised]
          if cleaned'.length ≥ 10 then cleaned' else cleanGo rest (seen ++ [key]) cleaned'

/-- `websocket_endpoint._normalise_channels` (main.py:90-122), applied
once per platform field of the subscribe request (main.py:124-126). -/
def normaliseChannels (v : SubVal) : List String := cleanGo (rawItems v) [] []

end Orchestrator

/-! ## Concrete fixtures and auxiliary predicates -/

/-- A search response whose first item carries a video id, reaching the
videos lookup. -/
def searchRespOk : YouTube.HttpResp :=
  ⟨200, .obj [("items", .arr [.obj [("id", .obj [("videoId", .str "V1")])]])]⟩

/-- A videos response whose `items[0]` is a JSON string rather than an
object. -/
def videosRespNonDict : YouTube.HttpResp :=
  ⟨200, .obj [("items", .arr [.str "unexpected"])]⟩

/-- A decoded Kick chat frame with a truthy user and message. -/
def kickSampleData : JVal :=
  .obj [("content", .str "hello"), ("sender", .obj [("username", .str "bob")])]

/-- The payload the Kick parser builds from `kickSampleData`. -/
def kickSampleParsed : Kick.Payload :=
  { user := .str "bob", message := .str "hello", channel := "chan",
    channelProfileImage := none, channelDisplayName := none, color := none,
    badges := [], id := none, userId := none, reply := none }

/-- A decoded YouTube poll item with a non-blank display message. -/
def ytSampleItem : JVal :=
  .obj [("id", .str "m1"),
    ("snippet", .obj [("type", .str "textMessageEvent"),
      ("displayMessage", .str "hi")]),
    ("authorDetails", .obj [("displayName", .str "alice")])]

/-- The payload the YouTube parser builds from `ytSampleItem`. -/
def ytSampleParsed : YouTube.Payload :=
  { user := "alice", message := "hi", channel := "abc", userId := none,
    avatar := none, badges := [], id := some "m1",
    channelProfileImage := none, channelDisplayName := none }

/-- One poll id arriving at the seen set: a duplicate leaves the set
unchanged (`seenStep` yields `none` and no event), a fresh id is
recorded via `updateSeen` with `choice` resolving the `set.pop()`
nondeterminism. -/
def dedupStep (seen : List String) (step : String × Nat) : List String :=
  (YouTube.seenStep seen step.2 (.str step.1)).getD seen

/-- The seen-id state after a sequence of poll ids, starting from the
adapter's initial empty set. -/
def dedupTrace (steps : List (String × Nat)) : List String :=
  steps.foldl dedupStep []

/-- Distinct provider message ids `""`, `"a"`, `"aa"`, … -/
def mkSeenId (n : Nat) : String := String.mk (List.replicate n 'a')

/-- 5001 distinct poll ids, the `set.pop()` choice resolving to the most
recently inserted element each time an eviction fires. -/
def cexSteps : List (String × Nat) :=
  (List.range 5001).map (fun n => (mkSeenId n, 5000))

/-- A span is in the emote map under a key: some binding of the key
holds it. -/
def memPos (m : List ((String × String) × List (Int × Int)))
    (k : String × String) (p : Int × Int) : Prop :=
  ∃ v, (k, v) ∈ m ∧ p ∈ v

/-! ## Shared lemmas about the dictionary model -/

theorem dictGet_dictPop {κ α : Type} [DecidableEq κ] (m : List (κ × α)) (j k : κ) :
    dictGet (dictPop m j) k = if k = j then none else dictGet m k := by
  induction m with
  | nil => simp [dictPop, dictGet, ite_self]
  | cons hd tl ih =>
    obtain ⟨a, b⟩ := hd
    by_cases h1 : a = j <;> by_cases h2 : a = k <;> by_cases h3 : k = j <;>
      simp_all [dictPop, dictGet]

theorem dictGet_dictPop_self {κ α : Type} [DecidableEq κ] (m : List (κ × α)) (k : κ) :
    dictGet (dictPop m k) k = none := by
  rw [dictGet_dictPop, if_pos rfl]

theorem dictGet_mem {κ α : Type} [DecidableEq κ] {m : List (κ × α)} {k : κ} {v : α}
    (h : dictGet m k = some v) : (k, v) ∈ m := by
  induction m with
  | nil => simp [dictGet] at h
  | cons hd tl ih =>
    obtain ⟨a, b⟩ := hd
    by_cases h1 : a = k
    · subst h1
      simp [dictGet] at h
      simp [h]
    · simp [dictGet, h1] at h
      exact List.mem_cons_of_mem _ (ih h)

/-! ## C10 — return shape of the live-chat id lookup -/

/-- C10: the claim states that `fetch_live_chat_id_for_channel` always
returns a pair, so the two-element unpacking at the resolution call site
cannot raise.  The code violates this on exactly one path: when the
videos endpoint answers 200 with a non-object `items[0]`, the
`return None` at youtube.py:745 yields a bare `None` (every sibling path
returns `None, None`, and the docstring promises the id/video pair), and
the call-site unpacking at youtube.py:298 raises `TypeError`. -/
theorem claim_C10_bare_none_return :
    YouTube.fetchLiveChatIdForChannel none searchRespOk searchRespOk videosRespNonDict =
      .bareNone ∧
    YouTube.unpackPair
        (YouTube.fetchLiveChatIdForChannel none searchRespOk searchRespOk videosRespNonDict) =
      .error "TypeError: cannot unpack non-iterable NoneType object" :=
  ⟨rfl, rfl⟩

/-! ## C4 — no badge fallback in the IRC adapter -/

/-- C4 counterexample: the spec's end-to-end scenario — badges
`"mod/1,sub/3"` with no manifest loaded — produces no badges at all:
`_resolve_badges` returns `[]` on an empty cache instead of attaching
title-cased fallback badges. -/
theorem claim_C4_counterexample :
    Twitch.resolveBadges [] (some "mod/1,sub/3") = [] := rfl

theorem resolveBadgeStep_mem (cache : List ((String × String) × Badge))
    (tokens : List (List Char)) (acc : List Badge) (b : Badge)
    (hb : b ∈ tokens.foldl (Twitch.resolveBadgeStep cache) acc) :
    b ∈ acc ∨ ∃ s v, ((s, v), b) ∈ cache := by
  induction tokens generalizing acc with
  | nil => exact Or.inl hb
  | cons t ts ih =>
    rcases ih _ hb with h | h
    · unfold Twitch.resolveBadgeStep at h
      split at h
      · exact Or.inl h
      · split at h
        · exact Or.inl h
        · split at h
          · rcases List.mem_append.1 h with h' | h'
            · exact Or.inl h'
            · rename_i badge heq
              rcases List.mem_singleton.1 h' with rfl
              exact Or.inr ⟨_, _, dictGet_mem heq⟩
          · exact Or.inl h
    · exact Or.inr h

/-- C4 (amended): a badge token with no manifest-cache entry is omitted
(never given a fallback label), an empty cache yields no badges at all,
and badge resolution is a pure local lookup that cannot block or change
delivery: the parsed event's user and message are independent of the
badge cache.  Every attached badge comes verbatim from the cache. -/
theorem claim_C4_amended :
    (∀ cache tag b, b ∈ Twitch.resolveBadges cache tag →
        ∃ s v, ((s, v), b) ∈ cache) ∧
    (∀ tag, Twitch.resolveBadges [] tag = []) ∧
    (∀ cache₁ cache₂ payload,
        (Twitch.parsePrivmsg cache₁ payload).user =
          (Twitch.parsePrivmsg cache₂ payload).user ∧
        (Twitch.parsePrivmsg cache₁ payload).message =
          (Twitch.parsePrivmsg cache₂ payload).message) := by
  refine ⟨?_, ?_, ?_⟩
  · intro cache tag b hb
    unfold Twitch.resolveBadges at hb
    split at hb
    · simp at hb
    · split at hb
      · simp at hb
      · rcases resolveBadgeStep_mem cache _ [] b hb with h | h
        · simp at h
        · exact h
  · intro tag
    unfold Twitch.resolveBadges
    split
    · rfl
    · simp
  · intro cache₁ cache₂ payload
    exact ⟨rfl, rfl⟩

/-- Witness for the hypotheses of the C4 theorem: a concrete cached
badge is traced back to the cache it came from. -/
theorem claim_C4_witness :
    ∃ s v, ((s, v), (⟨"mod", "1", "Moderator", "url"⟩ : Badge)) ∈
      [((("mod" : String), ("1" : String)), (⟨"mod", "1", "Moderator", "url"⟩ : Badge))] :=
  claim_C4_amended.1 [(("mod", "1"), ⟨"mod", "1", "Moderator", "url"⟩)]
    (some "mod/1") ⟨"mod", "1", "Moderator", "url"⟩ (by decide)

/-! ## C7 — the polling interval is clamped from below only -/

/-- C7 counterexample: no pair of constants bounds the slept interval
for every positive server hint — there is no upper clamp, so the claimed
`[min, max]` clamping fails. -/
theorem claim_C7_counterexample :
    ¬ ∃ mn mx : ℚ, ∀ h : ℚ, 0 < h →
        mn ≤ YouTube.nextPollInterval 2.5 (some h) ∧
        YouTube.nextPollInterval 2.5 (some h) ≤ mx := by
  rintro ⟨mn, mx, hall⟩
  have hpos : (0 : ℚ) < 1000 * (max mx 0 + 1) := by positivity
  have hval := (hall (1000 * (max mx 0 + 1)) hpos).2
  rw [YouTube.nextPollInterval, if_pos hpos] at hval
  have hdiv : (1000 * (max mx 0 + 1)) / 1000 = max mx 0 + 1 := by ring
  rw [hdiv] at hval
  have h1 : mx < max mx 0 + 1 := lt_of_le_of_lt (le_max_left mx 0) (by linarith)
  have h2 : max mx 0 + 1 ≤ max 1 (max mx 0 + 1) := le_max_right _ _
  linarith

/-- C7 (amended): the hint is clamped from below only — with any
positive hint the slept interval is at least the fixed 1.0-second
minimum and equals `max 1 (hint / 1000)`, which grows without bound in
the hint; non-positive or missing hints leave the previous interval
unchanged. -/
theorem claim_C7_amended :
    (∀ prev h : ℚ, 0 < h → 1 ≤ YouTube.nextPollInterval prev (some h)) ∧
    (∀ M : ℚ, ∃ h : ℚ, 0 < h ∧ M < YouTube.nextPollInterval 2.5 (some h)) ∧
    (∀ prev h : ℚ, h ≤ 0 → YouTube.nextPollInterval prev (some h) = prev) := by
  refine ⟨?_, ?_, ?_⟩
  · intro prev h hp
    rw [YouTube.nextPollInterval, if_pos hp]
    exact le_max_left 1 _
  · intro M
    refine ⟨1000 * (max M 0 + 1), by positivity, ?_⟩
    have hpos : (0 : ℚ) < 1000 * (max M 0 + 1) := by positivity
    rw [YouTube.nextPollInterval, if_pos hpos]
    have hdiv : (1000 * (max M 0 + 1)) / 1000 = max M 0 + 1 := by ring
    rw [hdiv]
    have h1 : M < max M 0 + 1 := lt_of_le_of_lt (le_max_left M 0) (by linarith)
    exact lt_of_lt_of_le h1 (le_max_right _ _)
  · intro prev h hp
    rw [YouTube.nextPollInterval, if_neg (not_lt.2 hp)]

/-- Witness for the hypotheses of the C7 theorem: the 500 ms hint is
clamped up to the 1-second floor. -/
theorem claim_C7_witness :
    (0 : ℚ) < 500 ∧ 1 ≤ YouTube.nextPollInterval 2.5 (some 500) :=
  ⟨by norm_num, claim_C7_amended.1 2.5 500 (by norm_num)⟩

/-! ## C8 — terminal handling of a 404/410 poll response -/

/-- C8: on a not-found/gone poll response the adapter invalidates the
live-session cache under both the lowercased channel id and handle keys
— removing the entries and any negative-cache failure mark regardless of
their TTLs — emits exactly one terminal status event, and stops the poll
loop. -/
theorem claim_C8_not_found_invalidates (s : YouTube.CacheState)
    (cid ch : String) (now : ℚ) (hcid : cid ≠ "") (hch : ch ≠ "") :
    YouTube.liveChatHit now (YouTube.pollNotFoundStep (some cid) ch s).1 cid = none ∧
    YouTube.liveChatHit now (YouTube.pollNotFoundStep (some cid) ch s).1 ch = none ∧
    dictGet (YouTube.pollNotFoundStep (some cid) ch s).1.failures
      (String.mk (pyLower cid.data)) = none ∧
    dictGet (YouTube.pollNotFoundStep (some cid) ch s).1.failures
      (String.mk (pyLower ch.data)) = none ∧
    (YouTube.pollNotFoundStep (some cid) ch s).2.1 =
      [{ platform := "youtube", channel := some ch, kind := .status,
         message := "YouTube live chat ended" }] ∧
    (YouTube.pollNotFoundStep (some cid) ch s).2.2 = true := by
  have hstate : (YouTube.pollNotFoundStep (some cid) ch s).1 =
      YouTube.invalidateLiveChatCache (some cid) (some ch) s := rfl
  have hinv : YouTube.invalidateLiveChatCache (some cid) (some ch) s =
      { liveChat := dictPop (dictPop s.liveChat (String.mk (pyLower cid.data)))
          (String.mk (pyLower ch.data)),
        failures := dictPop (dictPop s.failures (String.mk (pyLower cid.data)))
          (String.mk (pyLower ch.data)) } := by
    unfold YouTube.invalidateLiveChatCache
    simp [List.foldl, hcid, hch]
  have hcidL : ∀ (m : List (String × YouTube.LiveChatEntry)),
      dictGet (dictPop (dictPop m (String.mk (pyLower cid.data)))
        (String.mk (pyLower ch.data))) (String.mk (pyLower cid.data)) = none := by
    intro m
    rw [dictGet_dictPop]
    split
    · rfl
    · exact dictGet_dictPop_self m _
  have hcidF : ∀ (m : List (String × ℚ)),
      dictGet (dictPop (dictPop m (String.mk (pyLower cid.data)))
        (String.mk (pyLower ch.data))) (String.mk (pyLower cid.data)) = none := by
    intro m
    rw [dictGet_dictPop]
    split
    · rfl
    · exact dictGet_dictPop_self m _
  refine ⟨?_, ?_, ?_, ?_, rfl, rfl⟩
  · rw [YouTube.liveChatHit, hstate, hinv]
    rw [hcidL]
  · rw [YouTube.liveChatHit, hstate, hinv]
    rw [dictGet_dictPop_self]
  · rw [hstate, hinv]
    exact hcidF s.failures
  · rw [hstate, hinv]
    exact dictGet_dictPop_self _ _

/-- Witness for the hypotheses of the C8 theorem: a populated cache with
an unexpired entry and a failure mark is fully cleared by the 404
handler. -/
theorem claim_C8_witness :
    YouTube.liveChatHit 50
      (YouTube.pollNotFoundStep (some "UCID") "@h"
        ⟨[("ucid", ⟨"L1", some "v", 100⟩), ("@h", ⟨"L1", some "v", 100⟩)],
         [("ucid", 5)]⟩).1 "UCID" = none ∧
    YouTube.liveChatHit 50
      (YouTube.pollNotFoundStep (some "UCID") "@h"
        ⟨[("ucid", ⟨"L1", some "v", 100⟩), ("@h", ⟨"L1", some "v", 100⟩)],
         [("ucid", 5)]⟩).1 "@h" = none ∧
    dictGet (YouTube.pollNotFoundStep (some "UCID") "@h"
        ⟨[("ucid", ⟨"L1", some "v", 100⟩), ("@h", ⟨"L1", some "v", 100⟩)],
         [("ucid", 5)]⟩).1.failures (String.mk (pyLower "UCID".data)) = none ∧
    dictGet (YouTube.pollNotFoundStep (some "UCID") "@h"
        ⟨[("ucid", ⟨"L1", some "v", 100⟩), ("@h", ⟨"L1", some "v", 100⟩)],
         [("ucid", 5)]⟩).1.failures (String.mk (pyLower "@h".data)) = none ∧
    (YouTube.pollNotFoundStep (some "UCID") "@h"
        ⟨[("ucid", ⟨"L1", some "v", 100⟩), ("@h", ⟨"L1", some "v", 100⟩)],
         [("ucid", 5)]⟩).2.1 =
      [{ platform := "youtube", channel := some "@h", kind := .status,
         message := "YouTube live chat ended" }] ∧
    (YouTube.pollNotFoundStep (some "UCID") "@h"
        ⟨[("ucid", ⟨"L1", some "v", 100⟩), ("@h", ⟨"L1", some "v", 100⟩)],
         [("ucid", 5)]⟩).2.2 = true :=
  claim_C8_not_found_invalidates
    ⟨[("ucid", ⟨"L1", some "v", 100⟩), ("@h", ⟨"L1", some "v", 100⟩)], [("ucid", 5)]⟩
    "UCID" "@h" 50 (by decide) (by decide)

/-! ## C9 — per-platform channel normalisation -/

/-- C9 counterexample: eleven distinct names submitted for each of two
platforms are normalised independently — each platform keeps ten, for a
total of twenty accepted channels, exceeding the fixed maximum of ten
that the claim says is applied to the platform-agnostic total. -/
theorem claim_C9_counterexample :
    (Orchestrator.normaliseChannels
        (.vList ["a","b","c","d","e","f","g","h","i","j","k"])).length = 10 ∧
    (Orchestrator.normaliseChannels
        (.vList ["m","n","o","p","q","r","s","t","u","v","w"])).length = 10 ∧
    (Orchestrator.normaliseChannels
        (.vList ["a","b","c","d","e","f","g","h","i","j","k"])).length +
      (Orchestrator.normaliseChannels
        (.vList ["m","n","o","p","q","r","s","t","u","v","w"])).length = 20 :=
  ⟨by decide, by decide, by decide⟩

theorem cleanGo_length (items : List String) :
    ∀ seen cleaned : List String, cleaned.length < 10 →
      (Orchestrator.cleanGo items seen cleaned).length ≤ 10 := by
  induction items with
  | nil =>
    intro seen cleaned h
    simpa [Orchestrator.cleanGo] using le_of_lt h
  | cons item rest ih =>
    intro seen cleaned h
    simp only [Orchestrator.cleanGo]
    split
    · exact ih seen cleaned h
    · split
      · exact ih seen cleaned h
      · split
        · exact ih seen cleaned h
        · split
          · simp only [List.length_append, List.length_singleton]
            omega
          · refine ih _ _ ?_
            rename_i hlt
            simp only [List.length_append, List.length_singleton] at hlt ⊢
            omega

theorem cleanGo_ne_empty (items : List String) :
    ∀ seen cleaned : List String, (∀ c ∈ cleaned, c.data ≠ []) →
      ∀ c ∈ Orchestrator.cleanGo items seen cleaned, c.data ≠ [] := by
  induction items with
  | nil =>
    intro seen cleaned h
    simpa [Orchestrator.cleanGo] using h
  | cons item rest ih =>
    intro seen cleaned h
    simp only [Orchestrator.cleanGo]
    split
    · exact ih seen cleaned h
    · split
      · exact ih seen cleaned h
      · split
        · exact ih seen cleaned h
        · have hmem : ∀ c ∈ cleaned ++ [String.mk (pyStrip (lstripHash item.data))],
              c.data ≠ [] := by
            intro c hc
            rcases List.mem_append.1 hc with hc | hc
            · exact h c hc
            · rcases List.mem_singleton.1 hc with rfl
              show pyStrip (lstripHash item.data) ≠ []
              assumption
          split
          · exact hmem
          · exact ih _ _ hmem

theorem cleanGo_nodup (items : List String) :
    ∀ seen cleaned : List String,
      cleaned.map (fun c => String.mk (pyLower c.data)) = seen → seen.Nodup →
      ((Orchestrator.cleanGo items seen cleaned).map
        (fun c => String.mk (pyLower c.data))).Nodup := by
  induction items with
  | nil =>
    intro seen cleaned hmap hnd
    simpa [Orchestrator.cleanGo, hmap] using hnd
  | cons item rest ih =>
    intro seen cleaned hmap hnd
    simp only [Orchestrator.cleanGo]
    split
    · exact ih seen cleaned hmap hnd
    · split
      · exact ih seen cleaned hmap hnd
      · split
        · exact ih seen cleaned hmap hnd
        · rename_i hnotin
          have hkey : String.mk (pyLower (pyStrip (lstripHash item.data))) ∉ seen := by
            intro hmem
            exact hnotin (List.elem_eq_true_of_mem hmem)
          have hmap' : (cleaned ++ [String.mk (pyStrip (lstripHash item.data))]).map
              (fun c => String.mk (pyLower c.data)) =
              seen ++ [String.mk (pyLower (pyStrip (lstripHash item.data)))] := by
            rw [List.map_append, hmap]
            rfl
          have hnd' : (seen ++ [String.mk (pyLower (pyStrip (lstripHash item.data)))]).Nodup := by
            rw [List.nodup_append]
            exact ⟨hnd, List.nodup_singleton _, by
              intro a ha hb
              rcases List.mem_singleton.1 hb with rfl
              exact hkey ha⟩
          split
          · rw [hmap']
            exact hnd'
          · exact ih _ _ hmap' hnd'

/-- C9 (amended): each platform's channel field is normalised
independently of the other platforms — entries are stripped of leading
`'#'`s and whitespace, case-insensitive duplicates within that platform
are dropped, every accepted entry is non-empty, and the fixed cap of ten
applies per platform (so the cross-platform total can reach thirty). -/
theorem claim_C9_amended (v : Orchestrator.SubVal) :
    (Orchestrator.normaliseChannels v).length ≤ 10 ∧
    (∀ c ∈ Orchestrator.normaliseChannels v, c ≠ "") ∧
    ((Orchestrator.normaliseChannels v).map
      (fun c => String.mk (pyLower c.data))).Nodup := by
  refine ⟨cleanGo_length _ _ _ (by norm_num), ?_, cleanGo_nodup _ _ _ rfl List.nodup_nil⟩
  intro c hc heq
  have hne := cleanGo_ne_empty (Orchestrator.rawItems v) [] [] (by simp) c hc
  rw [heq] at hne
  exact hne rfl

/-- Witness for the hypotheses of the C9 theorem at a concrete subscribe
string. -/
theorem claim_C9_witness :
    (Orchestrator.normaliseChannels (.vStr "#Foo,Bar")).length ≤ 10 ∧
    ("Foo" : String) ≠ "" ∧
    ((Orchestrator.normaliseChannels (.vStr "#Foo,Bar")).map
      (fun c => String.mk (pyLower c.data))).Nodup :=
  ⟨(claim_C9_amended (.vStr "#Foo,Bar")).1,
   (claim_C9_amended (.vStr "#Foo,Bar")).2.1 "Foo" (by decide),
   (claim_C9_amended (.vStr "#Foo,Bar")).2.2⟩

/-! ## C2 — exception handling at the adapter run boundaries -/

/-- C2 counterexample: when YouTube channel resolution raises, the
adapter enqueues one error event and returns — the error is not followed
by any terminal status event, contradicting the claim for the YouTube
adapter. -/
theorem claim_C2_counterexample :
    (YouTube.runEvents "abc" "T" (.resolveError "boom") [] .breaks).1 =
      [{ platform := "youtube", channel := some "abc", kind := .error,
         message := "YouTube channel lookup failed: boom" }] ∧
    (∀ e ∈ (YouTube.runEvents "abc" "T" (.resolveError "boom") [] .breaks).1,
        e.kind ≠ EvKind.status) :=
  ⟨rfl, by decide⟩

/-- C2 (amended): the Twitch and Kick adapters convert an unexpected
exception into one error event, follow it with the terminal status
event, and never propagate it.  The YouTube adapter deviates in both
directions: a resolution failure (or missing live chat/API key) enqueues
a single error event and returns with no terminal status, while an
unexpected exception inside the poll loop is never converted to an error
event — the `finally` block enqueues the terminal status and the
exception propagates across the task boundary. -/
theorem claim_C2_amended :
    (∀ ch pre e,
        (Twitch.runEvents ch pre (some e)).2 = false ∧
        (Twitch.runEvents ch pre (some e)).1.getLast? =
          some { platform := "twitch", channel := none, kind := .status,
                 message := "Disconnected from Twitch chat for " ++ ch } ∧
        { platform := "twitch", channel := none, kind := EvKind.error,
          message := "Twitch connection failed: " ++ e } ∈
          (Twitch.runEvents ch pre (some e)).1) ∧
    (∀ ch e pre o,
        (Kick.runEvents ch (some e) pre o).2 = false ∧
        (Kick.runEvents ch (some e) pre o).1 =
          [{ platform := "kick", channel := some ch, kind := .error,
             message := "Kick channel lookup failed: " ++ e },
           { platform := "kick", channel := some ch, kind := .status,
             message := "Stopped listening to " ++ ch }]) ∧
    (∀ ch pre e,
        (Kick.runEvents ch none pre (.unexpected e)).2 = false ∧
        (Kick.runEvents ch none pre (.unexpected e)).1.getLast? =
          some { platform := "kick", channel := some ch, kind := .status,
                 message := "Disconnected from Kick chat for " ++ ch } ∧
        { platform := "kick", channel := some ch, kind := EvKind.error,
          message := "Kick connection failed: " ++ e } ∈
          (Kick.runEvents ch none pre (.unexpected e)).1) ∧
    (∀ ch t e pre o,
        (YouTube.runEvents ch t (.resolveError e) pre o).2 = false ∧
        (∀ ev ∈ (YouTube.runEvents ch t (.resolveError e) pre o).1,
            ev.kind = EvKind.error)) ∧
    (∀ ch t pre e,
        (YouTube.runEvents ch t .ready pre (.unexpected e)).2 = true ∧
        (∀ ev ∈ (YouTube.runEvents ch t .ready pre (.unexpected e)).1,
            ev ∈ pre ∨ ev.kind = EvKind.status)) := by
  refine ⟨?_, ?_, ?_, ?_, ?_⟩
  · intro ch pre e
    refine ⟨rfl, ?_, ?_⟩
    · show ((pre ++ _) ++ _).getLast? = _
      rw [List.getLast?_concat]
    · show _ ∈ (pre ++ _) ++ _
      simp
  · intro ch e pre o
    exact ⟨rfl, rfl⟩
  · intro ch pre e
    refine ⟨rfl, ?_, ?_⟩
    · show ((pre ++ _) ++ _).getLast? = _
      rw [List.getLast?_concat]
    · show _ ∈ (pre ++ _) ++ _
      simp
  · intro ch t e pre o
    refine ⟨rfl, ?_⟩
    intro ev hev
    rcases List.mem_singleton.1 hev with rfl
    rfl
  · intro ch t pre e
    refine ⟨rfl, ?_⟩
    intro ev hev
    rcases List.mem_cons.1 hev with rfl | hev
    · exact Or.inr rfl
    · rcases List.mem_append.1 hev with hev | hev
      · exact Or.inl hev
      · rcases List.mem_singleton.1 hev with rfl
        exact Or.inr rfl

/-- Witness for the hypotheses of the C2 theorem: the lone event of the
YouTube resolution-failure path is an error event, and the Twitch
boundary does not propagate. -/
theorem claim_C2_witness :
    ({ platform := "youtube", channel := some "c", kind := EvKind.error,
       message := "YouTube channel lookup failed: x" } : Event).kind =
      EvKind.error ∧
    (Twitch.runEvents "c" [] (some "x")).2 = false :=
  ⟨(claim_C2_amended.2.2.2.1 "c" "T" "x" [] .breaks).2
      { platform := "youtube", channel := some "c", kind := EvKind.error,
        message := "YouTube channel lookup failed: x" } (by simp [YouTube.runEvents]),
   (claim_C2_amended.1 "c" [] "x").1⟩

/-! ## C1 — non-empty user and message on chat events -/

/-- C1 counterexample: the Twitch parser performs no emptiness checks.
A PRIVMSG frame without a `" :"` trailing separator is parsed and —
since `_parse_privmsg` always returns a truthy dict — enqueued as a chat
event with an empty message, and a frame with an empty nick and no
display-name tag yields an event with an empty user. -/
theorem claim_C1_counterexample :
    Twitch.handleLine [] ":a!a@a.tmi.twitch.tv PRIVMSG #chan" =
      some { user := "a", message := "", id := none, reply := none,
             color := none, userId := none, emotes := [], badges := [] } ∧
    (Twitch.parsePrivmsg [] ":!u@h PRIVMSG #c :hi").user = "" ∧
    (Twitch.parsePrivmsg [] ":!u@h PRIVMSG #c :hi").message = "hi" :=
  ⟨by decide, by decide, by decide⟩

theorem ite_none_eq_some {α : Type} {C : Prop} [Decidable C] {y : Option α}
    {p : α} (h : (if C then none else y) = some p) : ¬ C ∧ y = some p := by
  split at h
  · exact absurd h (by simp)
  · exact ⟨by assumption, h⟩

theorem ite_nonepair_eq {α β : Type} {C : Prop} [Decidable C] {s s2 : β}
    {y : Option α × β} {p : α}
    (h : (if C then ((none : Option α), s) else y) = (some p, s2)) :
    ¬ C ∧ y = (some p, s2) := by
  split at h
  · exact absurd (congrArg Prod.fst h) (by simp)
  · exact ⟨by assumption, h⟩

theorem isNonBlankStr_strOrEmpty_ne (d : JVal)
    (h : YouTube.isNonBlankStr d = true) :
    YouTube.strOrEmpty d ≠ "" := by
  cases d <;> simp [YouTube.isNonBlankStr, YouTube.strOrEmpty] at h ⊢
  intro heq
  subst heq
  exact h rfl

/-- C1 (amended): the Kick parser enforces the invariant for both
fields (frames whose decoded user or message is falsy produce no event,
so an emitted string user or message is never empty); the YouTube parser
enforces it for the message (blank or non-string display messages
produce no event) but not for the user, and the Twitch parser enforces
neither. -/
theorem claim_C1_amended :
    (∀ resolver profileImage displayName ch data p,
        Kick.parseChatMessage resolver profileImage displayName ch data = some p →
        truthy p.user = true ∧ truthy p.message = true) ∧
    (∀ ch thumb title seen evict item p seen2,
        YouTube.parseMessage ch thumb title seen evict item = (some p, seen2) →
        p.message ≠ "") := by
  constructor
  · intro resolver profileImage displayName ch data p h
    simp only [Kick.parseChatMessage] at h
    obtain ⟨hd, h⟩ := ite_none_eq_some h
    obtain ⟨hg, h⟩ := ite_none_eq_some h
    obtain rfl := Option.some.inj h
    rw [not_or, not_not, not_not] at hg
    exact ⟨hg.2, hg.1⟩
  · intro ch thumb title seen evict item p seen2 h
    simp only [YouTube.parseMessage] at h
    obtain ⟨hd, h⟩ := ite_nonepair_eq h
    cases hscr : YouTube.seenStep seen evict (jget item "id") with
    | none =>
      rw [hscr] at h
      exact absurd (congrArg Prod.fst h) (by simp)
    | some seenNext =>
      rw [hscr] at h
      dsimp only at h
      obtain ⟨hA, h⟩ := ite_nonepair_eq h
      obtain ⟨hB, h⟩ := ite_nonepair_eq h
      obtain ⟨hblank, h⟩ := ite_nonepair_eq h
      rw [Prod.mk.injEq] at h
      obtain ⟨h1, h2⟩ := h
      obtain rfl := Option.some.inj h1
      exact isNonBlankStr_strOrEmpty_ne _ (not_not.mp hblank)

/-- Witness for the hypotheses of the C1 theorem at concrete Kick and
YouTube frames. -/
theorem claim_C1_witness :
    (truthy (JVal.str "bob") = true ∧ truthy (JVal.str "hello") = true) ∧
    ("hi" : String) ≠ "" :=
  ⟨claim_C1_amended.1 (fun _ => []) "" "" "chan" kickSampleData kickSampleParsed rfl,
   claim_C1_amended.2 "abc" none none [] 0 ytSampleItem ytSampleParsed ["m1"] rfl⟩

/-! ## C3 — the bounded recent-id set and its eviction order -/

theorem mkSeenId_inj {m n : Nat} (h : mkSeenId m = mkSeenId n) : m = n := by
  simpa [mkSeenId] using congrArg (fun s => s.data.length) h

theorem mkSeenId_fresh (k : Nat) :
    mkSeenId k ∉ (List.range k).map mkSeenId := by
  intro hmem
  rcases List.mem_map.1 hmem with ⟨n, hn, heq⟩
  have := mkSeenId_inj heq
  have := List.mem_range.1 hn
  omega

theorem mkSeenId_contains_false (k : Nat) :
    ((List.range k).map mkSeenId).contains (mkSeenId k) = false :=
  Bool.eq_false_iff.mpr
    (fun hc => mkSeenId_fresh k (List.mem_of_elem_eq_true hc))

theorem dedupTrace_concat (steps : List (String × Nat)) (x : String × Nat) :
    dedupTrace (steps ++ [x]) = dedupStep (dedupTrace steps) x := by
  simp [dedupTrace, List.foldl_append]

theorem dedupStep_fresh (seen : List String) (id : String) (k : Nat)
    (hfresh : seen.contains id = false) (hlen : seen.length < 5000) :
    dedupStep seen (id, k) = seen ++ [id] := by
  unfold dedupStep YouTube.seenStep
  dsimp only
  rw [if_neg (by rw [hfresh]; simp)]
  unfold YouTube.updateSeen
  rw [if_neg (by simp only [List.length_append, List.length_singleton]; omega)]
  rfl

theorem eraseIdx_concat_self {α : Type} (l : List α) (x : α) :
    (l ++ [x]).eraseIdx l.length = l := by
  induction l with
  | nil => rfl
  | cons a t ih => simpa [List.eraseIdx] using ih

theorem dedupTrace_prefix :
    ∀ n, n ≤ 5000 →
      dedupTrace ((List.range n).map (fun i => (mkSeenId i, 5000))) =
        (List.range n).map mkSeenId := by
  intro n
  induction n with
  | zero => intro _; rfl
  | succ m ih =>
    intro hle
    rw [List.range_succ, List.map_append, List.map_append]
    simp only [List.map_cons, List.map_nil]
    rw [dedupTrace_concat, ih (by omega),
      dedupStep_fresh _ _ _ (mkSeenId_contains_false m)
        (by simp only [List.length_map, List.length_range]; omega)]

/-- C3 counterexample: after 5001 distinct poll ids the bound fires once
(the set holds 5000 ids), and with the permitted `set.pop()` resolution
the evicted element is the most recently inserted id — the
oldest-inserted id is still in the set — so the claimed oldest-first
eviction does not hold: a CPython set is unordered and `pop()` removes
an arbitrary element. -/
theorem claim_C3_counterexample :
    mkSeenId 0 ∈ dedupTrace cexSteps ∧
    mkSeenId 5000 ∉ dedupTrace cexSteps ∧
    (dedupTrace cexSteps).length = 5000 := by
  have hstep : dedupTrace cexSteps =
      dedupStep ((List.range 5000).map mkSeenId) (mkSeenId 5000, 5000) := by
    unfold cexSteps
    rw [List.range_succ, List.map_append]
    simp only [List.map_cons, List.map_nil]
    rw [dedupTrace_concat, dedupTrace_prefix 5000 le_rfl]
  have heval : dedupStep ((List.range 5000).map mkSeenId) (mkSeenId 5000, 5000) =
      (List.range 5000).map mkSeenId := by
    unfold dedupStep YouTube.seenStep
    dsimp only
    rw [if_neg (by rw [mkSeenId_contains_false]; simp)]
    unfold YouTube.updateSeen
    rw [if_pos (by simp only [List.length_append, List.length_singleton,
      List.length_map, List.length_range]; omega)]
    have hlen : ((List.range 5000).map mkSeenId).length = 5000 := by
      simp only [List.length_map, List.length_range]
    have herase : ((List.range 5000).map mkSeenId ++ [mkSeenId 5000]).eraseIdx 5000 =
        (List.range 5000).map mkSeenId := by
      have h := eraseIdx_concat_self ((List.range 5000).map mkSeenId) (mkSeenId 5000)
      rwa [hlen] at h
    rw [herase]
    exact Option.getD_some
  rw [hstep, heval]
  refine ⟨?_, mkSeenId_fresh 5000, ?_⟩
  · exact List.mem_map.2 ⟨0, List.mem_range.2 (by norm_num), rfl⟩
  · simp only [List.length_map, List.length_range]

/-- C3 (amended): any polled message whose string id is already in the
seen set produces no event and leaves the set unchanged, and the set
stays bounded at 5000 ids — but when the bound fires, `set.pop()`
removes an arbitrary element of the unordered set (whichever position
the choice resolves to), not necessarily the oldest-inserted id. -/
theorem claim_C3_amended :
    (∀ seen evict ch thumb title item id,
        jget item "id" = JVal.str id → seen.contains id = true →
        YouTube.parseMessage ch thumb title seen evict item = (none, seen)) ∧
    (∀ seen id evict, seen.length ≤ 5000 → evict ≤ seen.length →
        (YouTube.updateSeen seen id evict).length ≤ 5000) := by
  constructor
  · intro seen evict ch thumb title item id hid hdup
    by_cases hd : isDict item
    · simp only [YouTube.parseMessage]
      rw [if_neg (by simpa using hd), hid]
      simp [YouTube.seenStep, List.mem_of_elem_eq_true hdup]
    · simp [YouTube.parseMessage, hd]
  · intro seen id evict hlen hev
    simp only [YouTube.updateSeen]
    split
    · rename_i hgt
      rw [List.length_eraseIdx_of_lt (by
        simp only [List.length_append, List.length_singleton] at hgt ⊢
        omega)]
      simp only [List.length_append, List.length_singleton]
      omega
    · rename_i hle
      simp only [List.length_append, List.length_singleton] at hle ⊢
      omega

/-- Witness for the hypotheses of the C3 theorem: a duplicate id is
dropped silently and a small set stays within the bound. -/
theorem claim_C3_witness :
    YouTube.parseMessage "abc" none none ["m1"] 0 ytSampleItem = (none, ["m1"]) ∧
    (YouTube.updateSeen ["m1"] "x" 0).length ≤ 5000 :=
  ⟨claim_C3_amended.1 ["m1"] 0 "abc" none none ytSampleItem "m1" rfl rfl,
   claim_C3_amended.2 ["m1"] "x" 0 (by norm_num) (by norm_num)⟩

/-! ## C5 — IRC tag-value escape decoding -/

theorem replace2_cons_ne (b r x : Char) (xs : List Char) (hx : x ≠ '\\') :
    Twitch.replace2 '\\' b r (x :: xs) = x :: Twitch.replace2 '\\' b r xs := by
  cases xs with
  | nil => rfl
  | cons y ys =>
    simp only [Twitch.replace2]
    rw [if_neg (fun hc => hx hc.1)]

theorem replace2_pair_ne (b r d : Char) (rest : List Char) (hd : d ≠ b) :
    Twitch.replace2 '\\' b r ('\\' :: d :: rest) =
      '\\' :: Twitch.replace2 '\\' b r (d :: rest) := by
  simp only [Twitch.replace2]
  rw [if_neg (fun hc => hd hc.2)]

theorem replace2_pair_eq (b r : Char) (rest : List Char) :
    Twitch.replace2 '\\' b r ('\\' :: b :: rest) =
      r :: Twitch.replace2 '\\' b r rest := by
  simp only [Twitch.replace2]
  rw [if_pos (by simp)]

theorem singlePass_cons_ne (x : Char) (xs : List Char) (hx : x ≠ '\\') :
    Twitch.specSinglePassDecode (x :: xs) =
      x :: Twitch.specSinglePassDecode xs := by
  cases xs with
  | nil => rfl
  | cons y ys =>
    simp only [Twitch.specSinglePassDecode]
    rw [if_neg (fun hc => hx hc.1)]

theorem singlePass_esc (d : Char) (rest : List Char)
    (hd : Twitch.isEscChar d = true) :
    Twitch.specSinglePassDecode ('\\' :: d :: rest) =
      Twitch.escChar d :: Twitch.specSinglePassDecode rest := by
  simp only [Twitch.specSinglePassDecode]
  rw [if_pos (by simp [hd])]

theorem singlePass_noesc (d : Char) (rest : List Char)
    (hd : Twitch.isEscChar d = false) :
    Twitch.specSinglePassDecode ('\\' :: d :: rest) =
      '\\' :: Twitch.specSinglePassDecode (d :: rest) := by
  simp only [Twitch.specSinglePassDecode]
  rw [if_neg (fun hc => by rw [hd] at hc; exact absurd hc.2 (by simp))]

theorem noDoubleBackslash_tail {c : Char} {xs : List Char}
    (h : Twitch.noDoubleBackslash (c :: xs) = true) :
    Twitch.noDoubleBackslash xs = true := by
  cases xs with
  | nil => rfl
  | cons d rest =>
    simp only [Twitch.noDoubleBackslash] at h
    split at h
    · exact absurd h (by simp)
    · exact h

theorem noDoubleBackslash_head {d : Char} {rest : List Char}
    (h : Twitch.noDoubleBackslash ('\\' :: d :: rest) = true) : d ≠ '\\' := by
  intro hd
  simp only [Twitch.noDoubleBackslash] at h
  rw [if_pos (by simp [hd])] at h
  exact absurd h (by simp)

theorem unescape_eq_singlePass :
    ∀ cs : List Char, Twitch.noDoubleBackslash cs = true →
      Twitch.unescapeTagValue cs = Twitch.specSinglePassDecode cs
  | [], _ => rfl
  | [_], _ => rfl
  | c :: d :: rest, h => by
    have hrest : Twitch.noDoubleBackslash rest = true :=
      noDoubleBackslash_tail (noDoubleBackslash_tail h)
    by_cases hc : c = '\\'
    · subst hc
      have hd : d ≠ '\\' := noDoubleBackslash_head h
      by_cases hs : d = 's'
      · subst hs
        unfold Twitch.unescapeTagValue
        rw [replace2_pair_eq 's' ' ' rest,
          replace2_cons_ne 'n' '\n' ' ' _ (by decide),
          replace2_cons_ne 'r' '\r' ' ' _ (by decide),
          replace2_cons_ne ':' ';' ' ' _ (by decide),
          replace2_cons_ne '\\' '\\' ' ' _ (by decide),
          singlePass_esc 's' rest (by decide)]
        exact congrArg (' ' :: ·) (unescape_eq_singlePass rest hrest)
      · by_cases hn : d = 'n'
        · subst hn
          unfold Twitch.unescapeTagValue
          rw [replace2_pair_ne 's' ' ' 'n' rest (by decide),
            replace2_cons_ne 's' ' ' 'n' rest (by decide),
            replace2_pair_eq 'n' '\n' _,
            replace2_cons_ne 'r' '\r' '\n' _ (by decide),
            replace2_cons_ne ':' ';' '\n' _ (by decide),
            replace2_cons_ne '\\' '\\' '\n' _ (by decide),
            singlePass_esc 'n' rest (by decide)]
          exact congrArg ('\n' :: ·) (unescape_eq_singlePass rest hrest)
        · by_cases hr : d = 'r'
          · subst hr
            unfold Twitch.unescapeTagValue
            rw [replace2_pair_ne 's' ' ' 'r' rest (by decide),
              replace2_cons_ne 's' ' ' 'r' rest (by decide),
              replace2_pair_ne 'n' '\n' 'r' _ (by decide),
              replace2_cons_ne 'n' '\n' 'r' _ (by decide),
              replace2_pair_eq 'r' '\r' _,
              replace2_cons_ne ':' ';' '\r' _ (by decide),
              replace2_cons_ne '\\' '\\' '\r' _ (by decide),
              singlePass_esc 'r' rest (by decide)]
            exact congrArg ('\r' :: ·) (unescape_eq_singlePass rest hrest)
          · by_cases hcolon : d = ':'
            · subst hcolon
              unfold Twitch.unescapeTagValue
              rw [replace2_pair_ne 's' ' ' ':' rest (by decide),
                replace2_cons_ne 's' ' ' ':' rest (by decide),
                replace2_pair_ne 'n' '\n' ':' _ (by decide),
                replace2_cons_ne 'n' '\n' ':' _ (by decide),
                replace2_pair_ne 'r' '\r' ':' _ (by decide),
                replace2_cons_ne 'r' '\r' ':' _ (by decide),
                replace2_pair_eq ':' ';' _,
                replace2_cons_ne '\\' '\\' ';' _ (by decide),
                singlePass_esc ':' rest (by decide)]
              exact congrArg (';' :: ·) (unescape_eq_singlePass rest hrest)
            · have hesc : Twitch.isEscChar d = false := by
                simp only [Twitch.isEscChar, decide_eq_false_iff_not]
                push_neg
                exact ⟨hs, hn, hr, hcolon, hd⟩
              unfold Twitch.unescapeTagValue
              rw [replace2_pair_ne 's' ' ' d rest hs,
                replace2_cons_ne 's' ' ' d rest hd,
                replace2_pair_ne 'n' '\n' d _ hn,
                replace2_cons_ne 'n' '\n' d _ hd,
                replace2_pair_ne 'r' '\r' d _ hr,
                replace2_cons_ne 'r' '\r' d _ hd,
                replace2_pair_ne ':' ';' d _ hcolon,
                replace2_cons_ne ':' ';' d _ hd,
                replace2_pair_ne '\\' '\\' d _ hd,
                replace2_cons_ne '\\' '\\' d _ hd,
                singlePass_noesc d rest hesc,
                singlePass_cons_ne d rest hd]
              exact congrArg (fun t => '\\' :: d :: t)
                (unescape_eq_singlePass rest hrest)
    · have htail : Twitch.noDoubleBackslash (d :: rest) = true :=
        noDoubleBackslash_tail h
      unfold Twitch.unescapeTagValue
      rw [replace2_cons_ne 's' ' ' c _ hc,
        replace2_cons_ne 'n' '\n' c _ hc,
        replace2_cons_ne 'r' '\r' c _ hc,
        replace2_cons_ne ':' ';' c _ hc,
        replace2_cons_ne '\\' '\\' c _ hc,
        singlePass_cons_ne c _ hc]
      exact congrArg (c :: ·) (unescape_eq_singlePass (d :: rest) htail)

/-- C5 counterexample: the value `\\s` (backslash, backslash, `s`)
decodes under the code's sequential replacement passes to backslash
followed by a space — the trailing backslash of the `\\` pair is
consumed by the earlier `\s` pass — whereas the claimed single
left-to-right pass decodes it to a backslash followed by `s`. -/
theorem claim_C5_counterexample :
    Twitch.unescapeTagValue ['\\', '\\', 's'] = ['\\', ' '] ∧
    Twitch.specSinglePassDecode ['\\', '\\', 's'] = ['\\', 's'] ∧
    Twitch.unescapeTagValue ['\\', '\\', 's'] ≠
      Twitch.specSinglePassDecode ['\\', '\\', 's'] :=
  ⟨by decide, by decide, by decide⟩

/-- C5 (amended): the five escapes are decoded by sequential global
`str.replace` passes in the order `\s`, `\n`, `\r`, `\:`, `\\` — not by
one left-to-right scan.  Because the `\\` pass runs last, a backslash it
produces is never re-interpreted, and on every value with no two
adjacent backslashes the sequential decoding coincides with the
single-pass decoding; the two differ only when a `\\` pair is directly
followed by `s`, `n`, `r` or `:`, where the inner escape is decoded
first. -/
theorem claim_C5_amended (value : List Char)
    (h : Twitch.noDoubleBackslash value = true) :
    Twitch.unescapeTagValue value = Twitch.specSinglePassDecode value :=
  unescape_eq_singlePass value h

/-- Witness for the hypothesis of the C5 theorem at a concrete tag
value. -/
theorem claim_C5_witness :
    Twitch.noDoubleBackslash ['a', '\\', 's', 'b'] = true ∧
    Twitch.unescapeTagValue ['a', '\\', 's', 'b'] =
      Twitch.specSinglePassDecode ['a', '\\', 's', 'b'] :=
  ⟨by decide, claim_C5_amended ['a', '\\', 's', 'b'] (by decide)⟩

/-! ## C6 — emote span validation and merging -/

theorem parseSpan_valid {len : Nat} {span : List Char} {p : Int × Int}
    (h : Twitch.parseSpan len span = some p) :
    0 ≤ p.1 ∧ p.1 ≤ p.2 ∧ p.2 < (len : Int) := by
  simp only [Twitch.parseSpan] at h
  split at h
  · exact absurd h (by simp)
  · split at h
    · rename_i s e heqs heqe
      split at h
      · exact absurd h (by simp)
      · rename_i hguard
        obtain rfl := Option.some.inj h
        push_neg at hguard
        exact ⟨hguard.1, hguard.2.1, hguard.2.2⟩
    · exact absurd h (by simp)

theorem parseEntry_some {msg entry : List Char} {key : String × String}
    {slices : List (Int × Int)}
    (h : Twitch.parseEntry msg entry = some (key, slices)) :
    slices = (pySplit ',' (pyPartition [':'] entry).2.2).filterMap
      (Twitch.parseSpan msg.length) := by
  simp only [Twitch.parseEntry] at h
  split at h
  · exact absurd h (by simp)
  · split at h
    · exact absurd h (by simp)
    · rename_i s e rest heq
      obtain ⟨h1, h2⟩ := Prod.mk.injEq _ _ _ _ ▸ Option.some.inj h
      rw [← h2, heq]

theorem parseEntry_valid {msg entry : List Char} {key : String × String}
    {slices : List (Int × Int)}
    (h : Twitch.parseEntry msg entry = some (key, slices)) :
    ∀ p ∈ slices, 0 ≤ p.1 ∧ p.1 ≤ p.2 ∧ p.2 < (msg.length : Int) := by
  intro p hp
  rw [parseEntry_some h] at hp
  rcases List.mem_filterMap.1 hp with ⟨span, _, hspan⟩
  exact parseSpan_valid hspan

theorem insertSlices_keys (m : List ((String × String) × List (Int × Int)))
    (k : String × String) (sl : List (Int × Int)) :
    (Twitch.insertSlices m k sl).map Prod.fst =
      if k ∈ m.map Prod.fst then m.map Prod.fst else m.map Prod.fst ++ [k] := by
  induction m with
  | nil => simp [Twitch.insertSlices]
  | cons hd tl ih =>
    obtain ⟨k0, v0⟩ := hd
    by_cases hk : k0 = k
    · subst hk
      simp [Twitch.insertSlices]
    · simp only [Twitch.insertSlices, if_neg hk, List.map_cons, ih]
      have : ¬ k = k0 := fun hc => hk hc.symm
      by_cases hmem : k ∈ tl.map Prod.fst <;>
        simp [List.mem_cons, this, hmem]

theorem insertSlices_keys_nodup
    (m : List ((String × String) × List (Int × Int)))
    (k : String × String) (sl : List (Int × Int))
    (h : (m.map Prod.fst).Nodup) :
    ((Twitch.insertSlices m k sl).map Prod.fst).Nodup := by
  rw [insertSlices_keys]
  split
  · exact h
  · rename_i hk
    rw [List.nodup_append]
    exact ⟨h, List.nodup_singleton _, fun a ha hb => by
      rcases List.mem_singleton.1 hb with rfl
      exact hk ha⟩

theorem insertSlices_val_mem
    {m : List ((String × String) × List (Int × Int))}
    {k : String × String} {sl : List (Int × Int)}
    {kv : (String × String) × List (Int × Int)}
    (h : kv ∈ Twitch.insertSlices m k sl) :
    ∀ p ∈ kv.2, (∃ kv' ∈ m, p ∈ kv'.2) ∨ p ∈ sl := by
  induction m with
  | nil =>
    intro p hp
    rcases List.mem_singleton.1 h with rfl
    exact Or.inr hp
  | cons hd tl ih =>
    obtain ⟨k0, v0⟩ := hd
    intro p hp
    by_cases hk : k0 = k
    · rw [Twitch.insertSlices, if_pos hk] at h
      rcases List.mem_cons.1 h with rfl | hmem
      · rcases List.mem_append.1 hp with hp' | hp'
        · exact Or.inl ⟨(k0, v0), List.mem_cons_self _ _, hp'⟩
        · exact Or.inr hp'
      · exact Or.inl ⟨kv, List.mem_cons_of_mem _ hmem, hp⟩
    · rw [Twitch.insertSlices, if_neg hk] at h
      rcases List.mem_cons.1 h with rfl | hmem
      · exact Or.inl ⟨(k0, v0), List.mem_cons_self _ _, hp⟩
      · rcases ih hmem p hp with ⟨kv', hkv', hp'⟩ | hp'
        · exact Or.inl ⟨kv', List.mem_cons_of_mem _ hkv', hp'⟩
        · exact Or.inr hp'

theorem memPos_insert_old
    {m : List ((String × String) × List (Int × Int))}
    {k' : String × String} {p : Int × Int} (k : String × String)
    (sl : List (Int × Int)) (h : memPos m k' p) :
    memPos (Twitch.insertSlices m k sl) k' p := by
  induction m with
  | nil =>
    obtain ⟨v, hv, _⟩ := h
    simp at hv
  | cons hd tl ih =>
    obtain ⟨k0, v0⟩ := hd
    obtain ⟨v, hv, hp⟩ := h
    by_cases hk : k0 = k
    · rw [Twitch.insertSlices, if_pos hk]
      rcases List.mem_cons.1 hv with heq | hv'
      · obtain ⟨rfl, rfl⟩ : k0 = k' ∧ v0 = v := by
          injection heq with h1 h2
          exact ⟨h1.symm, h2.symm⟩
        exact ⟨v0 ++ sl, List.mem_cons_self _ _, List.mem_append_left _ hp⟩
      · exact ⟨v, List.mem_cons_of_mem _ hv', hp⟩
    · rw [Twitch.insertSlices, if_neg hk]
      rcases List.mem_cons.1 hv with heq | hv'
      · obtain ⟨rfl, rfl⟩ : k0 = k' ∧ v0 = v := by
          injection heq with h1 h2
          exact ⟨h1.symm, h2.symm⟩
        exact ⟨v0, List.mem_cons_self _ _, hp⟩
      · obtain ⟨w, hw, hpw⟩ := ih ⟨v, hv', hp⟩
        exact ⟨w, List.mem_cons_of_mem _ hw, hpw⟩

theorem memPos_insert_new
    (m : List ((String × String) × List (Int × Int)))
    (k : String × String) (sl : List (Int × Int)) {p : Int × Int}
    (hp : p ∈ sl) : memPos (Twitch.insertSlices m k sl) k p := by
  induction m with
  | nil => exact ⟨sl, List.mem_singleton.2 rfl, hp⟩
  | cons hd tl ih =>
    obtain ⟨k0, v0⟩ := hd
    by_cases hk : k0 = k
    · rw [Twitch.insertSlices, if_pos hk]
      subst hk
      exact ⟨v0 ++ sl, List.mem_cons_self _ _, List.mem_append_right _ hp⟩
    · rw [Twitch.insertSlices, if_neg hk]
      obtain ⟨w, hw, hpw⟩ := ih
      exact ⟨w, List.mem_cons_of_mem _ hw, hpw⟩

theorem emoteFold_keys_nodup (msg : List Char) :
    ∀ (entries : List (List Char))
      (m0 : List ((String × String) × List (Int × Int))),
      (m0.map Prod.fst).Nodup →
      (((entries.foldl (Twitch.emoteFoldStep msg) m0)).map Prod.fst).Nodup := by
  intro entries
  induction entries with
  | nil => intro m0 h; exact h
  | cons e es ih =>
    intro m0 h
    rw [List.foldl_cons]
    refine ih _ ?_
    unfold Twitch.emoteFoldStep
    split
    · exact h
    · exact insertSlices_keys_nodup _ _ _ h

theorem emoteFold_memPos_mono (msg : List Char) :
    ∀ (entries : List (List Char))
      (m0 : List ((String × String) × List (Int × Int)))
      (k : String × String) (p : Int × Int),
      memPos m0 k p → memPos (entries.foldl (Twitch.emoteFoldStep msg) m0) k p := by
  intro entries
  induction entries with
  | nil => intro m0 k p h; exact h
  | cons e es ih =>
    intro m0 k p h
    rw [List.foldl_cons]
    refine ih _ _ _ ?_
    unfold Twitch.emoteFoldStep
    split
    · exact h
    · exact memPos_insert_old _ _ h

theorem emoteFold_complete (msg : List Char) :
    ∀ (entries : List (List Char))
      (m0 : List ((String × String) × List (Int × Int)))
      (entry : List Char) (key : String × String)
      (slices : List (Int × Int)) (p : Int × Int),
      entry ∈ entries → Twitch.parseEntry msg entry = some (key, slices) →
      p ∈ slices →
      memPos (entries.foldl (Twitch.emoteFoldStep msg) m0) key p := by
  intro entries
  induction entries with
  | nil => intro m0 entry key slices p hmem; simp at hmem
  | cons e es ih =>
    intro m0 entry key slices p hmem hparse hp
    rw [List.foldl_cons]
    rcases List.mem_cons.1 hmem with rfl | hmem'
    · refine emoteFold_memPos_mono msg es _ key p ?_
      unfold Twitch.emoteFoldStep
      rw [hparse]
      exact memPos_insert_new _ _ _ hp
    · exact ih _ entry key slices p hmem' hparse hp

theorem emoteFold_valid (msg : List Char) :
    ∀ (entries : List (List Char))
      (m0 : List ((String × String) × List (Int × Int))),
      (∀ kv ∈ m0, ∀ p ∈ kv.2,
          0 ≤ p.1 ∧ p.1 ≤ p.2 ∧ p.2 < (msg.length : Int)) →
      ∀ kv ∈ entries.foldl (Twitch.emoteFoldStep msg) m0, ∀ p ∈ kv.2,
        0 ≤ p.1 ∧ p.1 ≤ p.2 ∧ p.2 < (msg.length : Int) := by
  intro entries
  induction entries with
  | nil => intro m0 h; exact h
  | cons e es ih =>
    intro m0 h
    rw [List.foldl_cons]
    refine ih _ ?_
    unfold Twitch.emoteFoldStep
    split
    · exact h
    · rename_i key slices hparse
      intro kv hkv p hp
      rcases insertSlices_val_mem hkv p hp with ⟨kv', hkv', hp'⟩ | hp'
      · exact h kv' hkv' p hp'
      · exact parseEntry_valid hparse p hp'

/-- C6: every span attached to an emitted emote satisfies
`0 ≤ start ≤ end < len(message)`; the emitted records carry pairwise
distinct `(emote id, derived name)` keys — duplicate keys are merged
into one record — and that record contains every valid span of every
entry sharing the key. -/
theorem claim_C6_emote_spans (tag : Option String) (msg : String) :
    (∀ r ∈ Twitch.parseEmotes tag msg, ∀ p ∈ r.positions,
        0 ≤ p.1 ∧ p.1 ≤ p.2 ∧ p.2 < (msg.data.length : Int)) ∧
    ((Twitch.parseEmotes tag msg).map (fun r => (r.id, r.name))).Nodup ∧
    (∀ entry ∈ pySplit '/' ((tag.getD "").data), ∀ key slices,
        Twitch.parseEntry msg.data entry = some (key, slices) →
        ∀ p ∈ slices, ∃ r ∈ Twitch.parseEmotes tag msg,
          r.id = key.1 ∧ r.name = key.2 ∧ p ∈ r.positions) := by
  have hempty : ∀ key slices,
      Twitch.parseEntry msg.data [] = some (key, slices) → False := by
    intro key slices hsome
    rw [show Twitch.parseEntry msg.data [] = none from rfl] at hsome
    exact absurd hsome (by simp)
  cases tag with
  | none =>
    refine ⟨by simp [Twitch.parseEmotes], by simp [Twitch.parseEmotes], ?_⟩
    intro entry hentry key slices hsome
    rcases List.mem_singleton.1 hentry with rfl
    exact absurd hsome (by intro hs; exact hempty _ _ hs)
  | some t =>
    by_cases ht : t.data = []
    · refine ⟨?_, ?_, ?_⟩
      · intro r hr
        rw [Twitch.parseEmotes, if_pos ht] at hr
        simp at hr
      · rw [Twitch.parseEmotes, if_pos ht]
        simp
      · intro entry hentry key slices hsome
        rw [show (Option.some t).getD "" = t from rfl, ht] at hentry
        rcases List.mem_singleton.1 hentry with rfl
        exact absurd hsome (by intro hs; exact hempty _ _ hs)
    · have hfold : Twitch.parseEmotes (some t) msg =
          ((pySplit '/' t.data).foldl (Twitch.emoteFoldStep msg.data) []).map
            (fun kv => { id := kv.1.1, name := kv.1.2, positions := kv.2 }) := by
        rw [Twitch.parseEmotes, if_neg ht]
      refine ⟨?_, ?_, ?_⟩
      · intro r hr p hp
        rw [hfold] at hr
        rcases List.mem_map.1 hr with ⟨kv, hkv, rfl⟩
        exact emoteFold_valid msg.data _ [] (by simp) kv hkv p hp
      · rw [hfold, List.map_map]
        have hcomp :
            ((fun r : Emote => (r.id, r.name)) ∘
              (fun kv : (String × String) × List (Int × Int) =>
                ({ id := kv.1.1, name := kv.1.2, positions := kv.2 } : Emote))) =
              Prod.fst := by
          funext kv
          obtain ⟨⟨i, n⟩, v⟩ := kv
          rfl
        rw [hcomp]
        exact emoteFold_keys_nodup msg.data _ [] (by simp)
      · intro entry hentry key slices hsome p hp
        have hmp : memPos ((pySplit '/' t.data).foldl
            (Twitch.emoteFoldStep msg.data) []) key p :=
          emoteFold_complete msg.data _ [] entry key slices p hentry hsome hp
        obtain ⟨v, hv, hpv⟩ := hmp
        refine ⟨{ id := key.1, name := key.2, positions := v }, ?_, rfl, rfl, hpv⟩
        rw [hfold]
        exact List.mem_map.2 ⟨(key, v), hv, rfl⟩

/-- Witness for the hypotheses of the C6 theorem: a tag with a repeated
`(id, name)` entry merges into one record holding both spans, and the
concrete span bounds hold. -/
theorem claim_C6_witness :
    (0 ≤ (0 : Int) ∧ (0 : Int) ≤ 4 ∧ (4 : Int) < (("Kappa" : String).data.length : Int)) ∧
    ((Twitch.parseEmotes (some "25:0-4/25:0-4") "Kappa").map
      (fun r => (r.id, r.name))).Nodup ∧
    (∃ r ∈ Twitch.parseEmotes (some "25:0-4/25:0-4") "Kappa",
        r.id = "25" ∧ r.name = "Kappa" ∧ ((0 : Int), (4 : Int)) ∈ r.positions) := by
  have h := claim_C6_emote_spans (some "25:0-4/25:0-4") "Kappa"
  refine ⟨?_, h.2.1, ?_⟩
  · exact h.1 ⟨"25", "Kappa", [(0, 4), (0, 4)]⟩ (by decide) (0, 4) (by decide)
  · exact h.2.2 ['2', '5', ':', '0', '-', '4'] (by decide) ("25", "Kappa")
      [(0, 4)] (by decide) (0, 4) (by decide)

end CombinedChat
